import Mathlib

/-!
# Verification of the bplib BPv6 core against its specification

Shallow embedding of the C sources of `bplib` (SDNV codec, EID parser,
channel configuration, channel load/accept/flush paths, the DACS reader and
the range-coalescing red-black tree) together with proofs and refutations of
the specification's claims.  Machine integers are modelled as `Nat`/`Int`
with explicit reductions modulo `2^w` at the points where the C code can
overflow.  Byte buffers are `List Nat` (each entry one byte).
-/

namespace BplibSpec

/-! ## Constants

The header `bplib.h` is not part of the sources at hand; the status codes
below are modelled from the spec (section 6: `SUCCESS=1`, `TIMEOUT=0`, and a
distinct negative code for every error taxon), and the flag bits from
section 7 (a per-call `flags` bitfield).  The exact numeric values of the
negative codes and of the flag bits are immaterial to every claim; only
their distinctness is used. -/

def BP_SUCCESS : Int := 1

def BP_TIMEOUT : Int := 0

def BP_PARMERR : Int := -2

def BP_FAILEDMEM : Int := -3

def BP_FAILEDRESPONSE : Int := -4

def BP_INVALIDEID : Int := -5

def BP_OVERFLOW : Int := -6

def BP_BUNDLETOOLARGE : Int := -7

def BP_PAYLOADTOOLARGE : Int := -8

def BP_FAILEDSTORE : Int := -9

def BP_BUNDLEPARSEERR : Int := -10

def BP_EXPIRED : Int := -11

def BP_PENDINGACKNOWLEDGMENT : Int := -12

def BP_PENDINGCUSTODYTRANSFER : Int := -13

def BP_FLAG_ROUTENEEDED : Nat := 1

def BP_FLAG_STOREFAILURE : Nat := 2

def BP_FLAG_UNRELIABLETIME : Nat := 4

def BP_FLAG_ACTIVETABLEWRAP : Nat := 8

/-- Flag bits of the standalone SDNV codec (`bplib_sdnv.h`, not under the
sources at hand; modelled from the spec section 4.1: an `OVERFLOW` and an
`INCOMPLETE` bit). -/
def BP_SDNV_OVERFLOW : Nat := 1

def BP_SDNV_INCOMPLETE : Nat := 2

/-- Source `BP_WRAP_TIMEOUT` from `lib/bplib.c` (1000 milliseconds). -/
def BP_WRAP_TIMEOUT : Nat := 1000

/-- Width of `bp_val_t`/`unsigned long` (64-bit platform). -/
def UL_MOD : Nat := 2 ^ 64

/-- Largest `unsigned long` value (`ULONG_MAX`). -/
def ULONG_MAX : Nat := UL_MOD - 1

/-! ## SDNV codec (`src/bplib_sdnv.c`)

The codec record `bp_sdnv_t` carries a value, a byte index into the buffer
and a width; `width < 0` on read means "read up to `size` bytes". -/

structure BpSdnv where
  value : Nat
  index : Nat
  width : Int
  deriving Repr, DecidableEq

/-- The `for` loop of `bplib_sdnv_read` (`src/bplib_sdnv.c` lines 50-56):
accumulate 7 bits per byte MSB-first while the continuation bit is set.
Returns the exit position `i` (one past the terminator byte on normal
termination), the accumulated value and the flags.  The accumulation
`value <<= 7; value |= (block[i] & 0x7F)` wraps at the width of
`bp_val_t`.  The loop counter `fuel` counts the iterations still allowed by the bound
`i < bound` of the C `for` loop: the wrapper passes `bound - index`, so
`fuel = 0` exactly when `i` has reached `bound`. -/
def sdnvReadLoop (block : List Nat) (size : Nat) : Nat → Nat → Nat → Nat → Nat × Nat × Nat
  | 0, i, value, flags => (i, value, flags ||| BP_SDNV_OVERFLOW)
  | fuel + 1, i, value, flags =>
    if i < size then
      let b := block.getD i 0
      let v := ((value <<< 7) % UL_MOD) ||| (b &&& 0x7F)
      if b &&& 0x80 = 0 then (i + 1, v, flags)
      else
        let f := if size < i + 2 then flags ||| BP_SDNV_INCOMPLETE else flags
        sdnvReadLoop block size fuel (i + 1) v f
    else
      (i, value, flags ||| BP_SDNV_OVERFLOW)

/-- Source `bplib_sdnv_read` (`src/bplib_sdnv.c` lines 36-63).  Returns the number
of bytes read, the updated codec record and the updated flags. -/
def bplib_sdnv_read (block : List Nat) (size : Nat) (sdnv : BpSdnv) (flags : Nat) :
    Nat × BpSdnv × Nat :=
  let width : Nat := if sdnv.width < 0 then size else sdnv.width.toNat
  let r := sdnvReadLoop block size (width - sdnv.index) sdnv.index 0 flags
  (r.1 - sdnv.index, { sdnv with value := r.2.1 }, r.2.2)

/-- Number of 7-bit groups needed to hold a value: the
`while(tmpval > 0) { maxbytes++; tmpval >>= 7; }` loop of
`bplib_sdnv_write`.  `tmpval` is a `uint32_t`, so 5 iterations always
exhaust it; the fuel of 10 passed by the caller is therefore never the
reason the loop stops. -/
def sdnvGroupsLoop : Nat → Nat → Nat
  | 0, _ => 0
  | fuel + 1, v => if v = 0 then 0 else 1 + sdnvGroupsLoop fuel (v >>> 7)

/-- The write loop of `bplib_sdnv_write` (`src/bplib_sdnv.c` lines 107-112):
`for(i = maxbytes + sdnv.index; i >= sdnv.index; i--)`, writing
`value & 0x7F` when `i == 0` and `value | 0x80` (truncated to a byte)
otherwise, shifting the value right by 7 after each store.  `steps + 1`
bytes are written, at positions `i` down to `i - steps`. -/
def sdnvWriteLoop (block : List Nat) (i steps : Nat) (value : Nat) : List Nat × Nat :=
  let b := if i = 0 then value &&& 0x7F else (value &&& 0xFF) ||| 0x80
  let block' := block.set i b
  let v := value >>> 7
  match steps with
  | 0 => (block', v)
  | s + 1 => sdnvWriteLoop block' (i - 1) s v

/-- Source `bplib_sdnv_write` (`src/bplib_sdnv.c` lines 75-119).  Returns the
number of bytes written (the C return value `maxbytes`), the updated buffer
and the updated flags.  Note the `uint32_t tmpval = sdnv.value` truncation
in the byte-count computation. -/
def bplib_sdnv_write (block : List Nat) (size : Nat) (sdnv : BpSdnv) (flags : Nat) :
    Nat × List Nat × Nat :=
  let mb : Int × Nat :=
    if sdnv.width ≤ 0 then
      (Int.ofNat (sdnvGroupsLoop 10 (sdnv.value % 2 ^ 32)), flags)
    else if sdnv.width ≤ (size : Int) - (sdnv.index : Int) then
      (sdnv.width, flags)
    else
      ((size : Int) - (sdnv.index : Int), flags ||| BP_SDNV_INCOMPLETE)
  let maxbytes := mb.1
  let flags1 := mb.2
  if maxbytes < 0 then
    -- the C loop body never runs when `maxbytes + index < index`
    (0, block, if sdnv.value > 0 then flags1 ||| BP_SDNV_OVERFLOW else flags1)
  else
    let r := sdnvWriteLoop block (maxbytes.toNat + sdnv.index) maxbytes.toNat sdnv.value
    let flags2 := if r.2 > 0 then flags1 ||| BP_SDNV_OVERFLOW else flags1
    (maxbytes.toNat, r.1, flags2)

/-! ## EID parser (`lib/bplib.c`, `bplib_eid2ipn`, lines 884-954)

`strtoul` is modelled for base 10 on strings without leading whitespace or
sign (the only shape the EID grammar of spec section 6 admits): it consumes
the maximal leading digit run, clamps to `ULONG_MAX` with `ERANGE` on
overflow, and reports how many characters it consumed (`endptr == ptr` iff
no digit was consumed). -/

/-- Value of a leading decimal-digit run (unclamped). -/
def decValue : List Char → Nat → Nat
  | c :: rest, acc =>
      if c.isDigit then decValue rest (acc * 10 + (c.toNat - '0'.toNat)) else acc
  | [], acc => acc

/-- Number of leading decimal digits. -/
def decCount : List Char → Nat
  | c :: rest => if c.isDigit then 1 + decCount rest else 0
  | [] => 0

/-- Model of `strtoul(s, &endptr, 10)`: returns the (clamped) value, the
number of characters consumed, and whether `errno` was set to `ERANGE`. -/
def strtoulDec (s : List Char) : Nat × Nat × Bool :=
  let raw := decValue s 0
  let n := decCount s
  if raw > ULONG_MAX then (ULONG_MAX, n, true) else (raw, n, false)

/-- Source `BP_MAX_EID_STRING` (from `bplib.h`, not under the sources at hand;
modelled from the spec section 6: EID total length `7..≤ MAX_EID_STRING`).
The exact bound is immaterial to the claims. -/
def BP_MAX_EID_STRING : Nat := 128

/-- Source `bplib_eid2ipn` (`lib/bplib.c` lines 884-954).  The byte buffer behind
`eid` is assumed to hold at least `len` characters.  Returns
`.ok (node, service)` or `.error BP_INVALIDEID`. -/
def bplib_eid2ipn (eid : List Char) (len : Nat) : Except Int (Nat × Nat) :=
  if len < 7 then .error BP_INVALIDEID
  else if len > BP_MAX_EID_STRING then .error BP_INVALIDEID
  else if eid.getD 0 ' ' ≠ 'i' ∨ eid.getD 1 ' ' ≠ 'p' ∨ eid.getD 2 ' ' ≠ 'n' ∨
          eid.getD 3 ' ' ≠ ':' then .error BP_INVALIDEID
  else
    let eidtmp := (eid.drop 4).take (len - 4)
    match eidtmp.findIdx? (· = '.') with
    | none => .error BP_INVALIDEID
    | some dot =>
      let node_ptr := eidtmp.take dot
      let service_ptr := eidtmp.drop (dot + 1)
      let n := strtoulDec node_ptr
      if n.2.1 = 0 ∨ ((n.1 = ULONG_MAX ∨ n.1 = 0) ∧ n.2.2) then .error BP_INVALIDEID
      else
        let s := strtoulDec service_ptr
        if s.2.1 = 0 ∨ ((s.1 = ULONG_MAX ∨ s.1 = 0) ∧ s.2.2) then .error BP_INVALIDEID
        else .ok (n.1, s.1)

/-! ## Storage service model

Modelled from the spec (section 6): the storage service is an external
collaborator.  A store is a FIFO queue of storage ids awaiting `dequeue`
together with the retained copies, addressable by sid until `relinquish`.
The model is reliable: `enqueue` always succeeds and `dequeue` of an empty
queue reports `TIMEOUT` (spec section 5: dequeue timeouts propagate
unchanged). -/

structure Storage (α : Type) where
  queue : List Nat
  items : List (Nat × α)
  nextSid : Nat
  deriving Repr, DecidableEq

def Storage.empty {α : Type} : Storage α := ⟨[], [], 1⟩

/-- Source `enqueue`: append under a fresh sid; the copy is retained. -/
def Storage.enqueue {α : Type} (st : Storage α) (x : α) : Storage α :=
  { queue := st.queue ++ [st.nextSid], items := st.items ++ [(st.nextSid, x)],
    nextSid := st.nextSid + 1 }

/-- Source `dequeue`: head-of-queue fetch; the sid keeps identifying the retained
copy.  Returns `none` when the queue is empty (`BP_TIMEOUT`). -/
def Storage.dequeue {α : Type} (st : Storage α) : Option (Nat × α) × Storage α :=
  match st.queue with
  | [] => (none, st)
  | sid :: rest =>
    match st.items.lookup sid with
    | some x => (some (sid, x), { st with queue := rest })
    | none => (none, { st with queue := rest })

/-- Source `retrieve`: random access by sid. -/
def Storage.retrieve {α : Type} (st : Storage α) (sid : Nat) : Option α :=
  st.items.lookup sid

/-- Source `relinquish`: release the retained copy.  Returns `BP_SUCCESS` when a
copy was retained under the sid. -/
def Storage.relinquish {α : Type} (st : Storage α) (sid : Nat) : Int × Storage α :=
  if (st.items.lookup sid).isSome then
    (BP_SUCCESS, { st with items := st.items.filter (fun p => !(p.1 == sid)) })
  else
    (BP_FAILEDSTORE, st)

/-- Replace the retained copy under `sid` (used to model the in-place patch
of a retained bundle by `bundle_update`). -/
def Storage.updateItem {α : Type} (st : Storage α) (sid : Nat) (x : α) : Storage α :=
  { st with items := st.items.map (fun p => if p.1 = sid then (sid, x) else p) }

/-! ## Channel data model (`lib/bplib.c`) -/

/-- Source `bp_attr_t` (channel attributes), with the fields used by `lib/bplib.c`.
The C fields are `int`s; boolean options are kept as `Bool` (the setter
restricts them to 0/1), counts and times as `Nat` (the claims use
non-negative configurations), and `wrap_response` as the raw `Int`
enumeration value. -/
structure BpAttr where
  lifetime : Nat
  request_custody : Bool
  admin_record : Bool
  integrity_check : Bool
  allow_fragmentation : Bool
  cipher_suite : Int
  timeout : Nat
  max_length : Nat
  wrap_response : Int
  cid_reuse : Bool
  dacs_rate : Nat
  active_table_size : Nat
  max_fills_per_dacs : Nat
  max_gaps_per_dacs : Nat
  deriving Repr, DecidableEq

def BP_WRAP_RESEND : Int := 0

def BP_WRAP_BLOCK : Int := 1

def BP_WRAP_DROP : Int := 2

/-- The slice of `bp_bundle_data_t` that the channel engine inspects: the
expiration time, the CTEB offset (`0` means custody was not requested), the
total size, and the custody id stamped into the CTEB by `v6_update`. -/
structure BpBundleData where
  exprtime : Nat
  cteboffset : Nat
  bundlesize : Nat
  cid : Nat
  deriving Repr, DecidableEq

/-- One `bp_active_table_t` entry: storage id (`none` is `BP_SID_VACANT`)
and last retransmit time. -/
structure ActiveSlot where
  sid : Option Nat
  retx : Nat
  deriving Repr, DecidableEq

instance : Inhabited ActiveSlot := ⟨⟨none, 0⟩⟩

structure BpStats where
  lost : Nat
  expired : Nat
  generated : Nat
  transmitted : Nat
  retransmitted : Nat
  received : Nat
  delivered : Nat
  acknowledged : Nat
  deriving Repr, DecidableEq

def BpStats.zero : BpStats := ⟨0, 0, 0, 0, 0, 0, 0, 0⟩

/-- The channel control block `bp_channel_t`: attributes, the bundle module
(of which the engine reads the `prebuilt` flag and the two storage
handles), the custody module's DACS storage handle, the custody-id window
and the active table. -/
structure Channel where
  attributes : BpAttr
  bundle_prebuilt : Bool
  bundleStore : Storage BpBundleData
  payloadStore : Storage (List Nat)
  dacsStore : Storage BpBundleData
  oldest_active_cid : Nat
  current_active_cid : Nat
  active_table : List ActiveSlot
  stats : BpStats
  deriving Repr, DecidableEq

/-- The state of a channel right after `bplib_open` (`lib/bplib.c` lines
180-195): empty stores, an all-vacant active table of `active_table_size`
entries, and both custody ids initialized to 1. -/
def Channel.opened (attrs : BpAttr) : Channel :=
  { attributes := attrs
    bundle_prebuilt := true
    bundleStore := Storage.empty
    payloadStore := Storage.empty
    dacsStore := Storage.empty
    oldest_active_cid := 1
    current_active_cid := 1
    active_table := List.replicate attrs.active_table_size default
    stats := BpStats.zero }

/-- Source `acknowledge` (`lib/bplib.c` lines 96-110): the DACS callback.  Maps the
custody id to its active-table slot; if the slot is not vacant, relinquishes
the storage id and vacates the slot, returning the relinquish status;
otherwise returns `BP_FAILEDRESPONSE`. -/
def acknowledge (ch : Channel) (cid : Nat) : Int × Channel :=
  let ati := cid % ch.attributes.active_table_size
  let slot := ch.active_table.getD ati default
  match slot.sid with
  | some sid =>
    let r := ch.bundleStore.relinquish sid
    (r.1, { ch with bundleStore := r.2,
                    active_table := ch.active_table.set ati { slot with sid := none } })
  | none => (BP_FAILEDRESPONSE, ch)

/-! ## Channel configuration (`lib/bplib.c`, `bplib_config`, lines 270-391) -/

def BP_OPT_MODE_READ : Int := 0

def BP_OPT_MODE_WRITE : Int := 1

def BP_OPT_LIFETIME : Int := 1

def BP_OPT_REQUEST_CUSTODY : Int := 2

def BP_OPT_ADMIN_RECORD : Int := 3

def BP_OPT_INTEGRITY_CHECK : Int := 4

def BP_OPT_ALLOW_FRAGMENTATION : Int := 5

def BP_OPT_CIPHER_SUITE : Int := 6

def BP_OPT_TIMEOUT : Int := 7

def BP_OPT_MAX_LENGTH : Int := 8

def BP_OPT_WRAP_RESPONSE : Int := 9

def BP_OPT_CID_REUSE : Int := 10

def BP_OPT_DACS_RATE : Int := 11

/-- Source `sizeof(int)` on the modelled platform. -/
def sizeof_int : Nat := 4

/-- Source `bplib_config` (`lib/bplib.c` lines 270-391).  Returns the status, the
updated channel, and (for `READ` mode) the value read back.  Every case of
the C switch checks `len == sizeof(int)`; boolean options additionally
reject write values other than 0/1, and `wrap_response` rejects values
outside `RESEND | BLOCK | DROP`.  After the switch the code executes
`if(setopt) ch->bundle.prebuilt = true;` (lines 386-387) — it *sets* the
prebuilt flag on a successful write.  The C switch either returns
`BP_PARMERR` early (modelled as `none`) or falls through to the statement
after the switch; `configSwitch` is the switch body and `bplib_config` the
whole function. -/
def configSwitch (ch : Channel) (setopt : Bool) (opt val : Int) (len : Nat) :
    Option (Channel × Int) :=
  let boolRead (b : Bool) : Int := if b then 1 else 0
  let afterSwitch (ch' : Channel) (rd : Int) : Option (Channel × Int) := some (ch', rd)
  if opt = BP_OPT_LIFETIME then
    if len ≠ sizeof_int then none
    else if setopt then afterSwitch
      { ch with attributes := { ch.attributes with lifetime := val.toNat } } 0
    else afterSwitch ch ch.attributes.lifetime
  else if opt = BP_OPT_REQUEST_CUSTODY then
    if len ≠ sizeof_int then none
    else if setopt ∧ val ≠ 1 ∧ val ≠ 0 then none
    else if setopt then afterSwitch
      { ch with attributes := { ch.attributes with request_custody := val = 1 } } 0
    else afterSwitch ch (boolRead ch.attributes.request_custody)
  else if opt = BP_OPT_ADMIN_RECORD then
    if len ≠ sizeof_int then none
    else if setopt ∧ val ≠ 1 ∧ val ≠ 0 then none
    else if setopt then afterSwitch
      { ch with attributes := { ch.attributes with admin_record := val = 1 } } 0
    else afterSwitch ch (boolRead ch.attributes.admin_record)
  else if opt = BP_OPT_INTEGRITY_CHECK then
    if len ≠ sizeof_int then none
    else if setopt ∧ val ≠ 1 ∧ val ≠ 0 then none
    else if setopt then afterSwitch
      { ch with attributes := { ch.attributes with integrity_check := val = 1 } } 0
    else afterSwitch ch (boolRead ch.attributes.integrity_check)
  else if opt = BP_OPT_ALLOW_FRAGMENTATION then
    if len ≠ sizeof_int then none
    else if setopt ∧ val ≠ 1 ∧ val ≠ 0 then none
    else if setopt then afterSwitch
      { ch with attributes := { ch.attributes with allow_fragmentation := val = 1 } } 0
    else afterSwitch ch (boolRead ch.attributes.allow_fragmentation)
  else if opt = BP_OPT_CIPHER_SUITE then
    if len ≠ sizeof_int then none
    else if setopt then afterSwitch
      { ch with attributes := { ch.attributes with cipher_suite := val } } 0
    else afterSwitch ch ch.attributes.cipher_suite
  else if opt = BP_OPT_TIMEOUT then
    if len ≠ sizeof_int then none
    else if setopt then afterSwitch
      { ch with attributes := { ch.attributes with timeout := val.toNat } } 0
    else afterSwitch ch ch.attributes.timeout
  else if opt = BP_OPT_MAX_LENGTH then
    if len ≠ sizeof_int then none
    else if setopt then afterSwitch
      { ch with attributes := { ch.attributes with max_length := val.toNat } } 0
    else afterSwitch ch ch.attributes.max_length
  else if opt = BP_OPT_WRAP_RESPONSE then
    if len ≠ sizeof_int then none
    else if setopt ∧ val ≠ BP_WRAP_RESEND ∧ val ≠ BP_WRAP_BLOCK ∧ val ≠ BP_WRAP_DROP then none
    else if setopt then afterSwitch
      { ch with attributes := { ch.attributes with wrap_response := val } } 0
    else afterSwitch ch ch.attributes.wrap_response
  else if opt = BP_OPT_CID_REUSE then
    if len ≠ sizeof_int then none
    else if setopt ∧ val ≠ 1 ∧ val ≠ 0 then none
    else if setopt then afterSwitch
      { ch with attributes := { ch.attributes with cid_reuse := val = 1 } } 0
    else afterSwitch ch (boolRead ch.attributes.cid_reuse)
  else if opt = BP_OPT_DACS_RATE then
    if len ≠ sizeof_int then none
    else if setopt then afterSwitch
      { ch with attributes := { ch.attributes with dacs_rate := val.toNat } } 0
    else afterSwitch ch ch.attributes.dacs_rate
  else none

def bplib_config (ch : Channel) (mode opt val : Int) (len : Nat) :
    Int × Channel × Int :=
  let setopt := mode = BP_OPT_MODE_WRITE
  match configSwitch ch setopt opt val len with
  | none => (BP_PARMERR, ch, 0)
  | some (ch', rd) =>
    -- `/* Re-initialize Bundles */ if(setopt) ch->bundle.prebuilt = true;`
    (BP_SUCCESS, if setopt then { ch' with bundle_prebuilt := true } else ch', rd)

/-! ## Bundle send (`lib/bundle.c`, `bundle_send`, lines 90-100)

`v6_build` and `v6_write` live in `v6.c`, which is not under the sources at
hand.  Modelled from the spec: `v6_build` rebuilds the bundle template from
the current attributes (section 4.3; after a rebuild the template is valid,
so `prebuilt` becomes true), and `v6_write` finalizes a bundle around the
payload and enqueues it to the bundle storage handle.  The expiration time
is `sysnow + lifetime` (0 meaning no expiry) and the CTEB is present
exactly when `request_custody` is set. -/

/-- Source `bundle_send`.  Returns the status, the updated channel, and whether
`v6_build` was invoked — which the source (lines 92-96) does exactly when
`bundle->prebuilt == false`. -/
def bundle_send (ch : Channel) (paySize sysnow : Nat) : Int × Channel × Bool :=
  let rebuild := ch.bundle_prebuilt = false
  let ch1 := if rebuild then { ch with bundle_prebuilt := true } else ch
  let data : BpBundleData :=
    { exprtime := if ch1.attributes.lifetime = 0 then 0
                  else sysnow + ch1.attributes.lifetime
      cteboffset := if ch1.attributes.request_custody then 1 else 0
      bundlesize := paySize + 1
      cid := 0 }
  (BP_SUCCESS, { ch1 with bundleStore := ch1.bundleStore.enqueue data }, rebuild)

/-- Source `bplib_store` (`lib/bplib.c` lines 423-441): `bundle_send`, and
`generated++` on success. -/
def bplib_store (ch : Channel) (paySize sysnow : Nat) : Int × Channel :=
  let r := bundle_send ch paySize sysnow
  if r.1 = BP_SUCCESS then
    (r.1, { r.2.1 with stats := { r.2.1.stats with generated := r.2.1.stats.generated + 1 } })
  else (r.1, r.2.1)

/-- Default attributes (`BP_DEFAULT_*`, from `bplib.h`, not under the
sources at hand; the particular values are immaterial to the claims — a
concrete channel is needed only as a witness input). -/
def defaultAttrs : BpAttr :=
  { lifetime := 0
    request_custody := true
    admin_record := false
    integrity_check := true
    allow_fragmentation := false
    cipher_suite := 1
    timeout := 10
    max_length := 4096
    wrap_response := BP_WRAP_RESEND
    cid_reuse := false
    dacs_rate := 5
    active_table_size := 4
    max_fills_per_dacs := 64
    max_gaps_per_dacs := 64 }

/-! ## Payload accept (`lib/bplib.c`, `bplib_accept`, lines 777-835) -/

/-- Source `bplib_accept`: dequeue a payload; if the caller's buffer is null,
allocate (`mallocOk` models whether `malloc` succeeds); if it is non-null
it must be at least `paylen` bytes.  On either delivery failure the payload
is counted lost; in *every* dequeued case the storage id is relinquished
before returning (line 826).  Returns the payload length or a status
code. -/
def bplib_accept (ch : Channel) (bufNull : Bool) (size : Int) (mallocOk : Bool) :
    Int × Channel :=
  let dq := ch.payloadStore.dequeue
  match dq.1 with
  | none => (BP_TIMEOUT, { ch with payloadStore := dq.2 })
  | some (sid, payptr) =>
    let paylen : Int := payptr.length
    let st1 := dq.2
    if bufNull ∨ size ≥ paylen then
      if bufNull ∧ ¬mallocOk then
        let r := st1.relinquish sid
        (BP_FAILEDMEM,
         { ch with payloadStore := r.2,
                   stats := { ch.stats with lost := ch.stats.lost + 1 } })
      else
        let r := st1.relinquish sid
        (paylen,
         { ch with payloadStore := r.2,
                   stats := { ch.stats with delivered := ch.stats.delivered + 1 } })
    else
      let r := st1.relinquish sid
      (BP_PAYLOADTOOLARGE,
       { ch with payloadStore := r.2,
                 stats := { ch.stats with lost := ch.stats.lost + 1 } })

/-! ## Channel flush (`lib/bplib.c`, `bplib_flush`, lines 227-265) -/

/-- The flush loop: while `oldest != current`, relinquish the slot at
`oldest % size` if occupied (counting it lost) and advance `oldest`.  The
fuel passed by the wrapper is exactly `current - oldest`, the number of
iterations the C loop performs. -/
def flushLoop : Nat → Channel → Channel
  | 0, ch => ch
  | fuel + 1, ch =>
    if ch.oldest_active_cid ≠ ch.current_active_cid then
      let ati := ch.oldest_active_cid % ch.attributes.active_table_size
      let slot := ch.active_table.getD ati default
      let ch' :=
        match slot.sid with
        | some sid =>
          let r := ch.bundleStore.relinquish sid
          { ch with bundleStore := r.2,
                    active_table := ch.active_table.set ati { slot with sid := none },
                    stats := { ch.stats with lost := ch.stats.lost + 1 } }
        | none => ch
      flushLoop fuel { ch' with oldest_active_cid := ch'.oldest_active_cid + 1 }
    else ch

def bplib_flush (ch : Channel) : Int × Channel :=
  (BP_SUCCESS, flushLoop (ch.current_active_cid - ch.oldest_active_cid) ch)

/-! ## Channel load (`lib/bplib.c`, `bplib_load`, lines 446-712)

The embedding mirrors the C control flow: the DACS dequeue, the active-table
timeout scan (under the active-table lock), the fresh dequeue loop, and the
emission stage.  The mutable locals of `bplib_load` are gathered into
`LoadLocals`; calls to `bplib_os_waiton` are recorded (with the timeout
argument) in `waits`.  `custody_send` (from `custody.c`, not under the
sources at hand) accumulates and enqueues pending DACS; it never touches
the active table or the custody-id window, so it is modelled as the
identity on this state.  The two loops take explicit fuel; the wrappers of
the claims pass enough fuel for the loop to reach its C exit condition. -/

/-- Which storage service the local `store`/`handle` pair of `bplib_load`
currently designates. -/
inductive StoreSel where
  | dacs
  | bundle
  deriving Repr, DecidableEq

def Channel.getSel (ch : Channel) : StoreSel → Storage BpBundleData
  | .dacs => ch.dacsStore
  | .bundle => ch.bundleStore

def Channel.setSel (ch : Channel) : StoreSel → Storage BpBundleData → Channel
  | .dacs, st => { ch with dacsStore := st }
  | .bundle, st => { ch with bundleStore := st }

/-- The mutable locals of `bplib_load` (lines 459-465), plus the
instrumented list of `bplib_os_waiton` timeouts. -/
structure LoadLocals where
  data : Option BpBundleData
  sid : Option Nat
  ati : Nat
  newcid : Bool
  sel : StoreSel
  status : Int
  flags : Nat
  waits : List Nat
  deriving Repr, DecidableEq

/-- Relinquish under an optional sid (`BP_SID_VACANT` relinquishes
nothing). -/
def relinquishOpt (st : Storage BpBundleData) : Option Nat → Storage BpBundleData
  | some sid => (st.relinquish sid).2
  | none => st

/-- The timeout scan of `bplib_load` (lines 504-613): while nothing is
selected and `oldest != current`, service the slot at `oldest % size` —
skip vacant entries, drop expired bundles, select timed-out bundles for
retransmit (reusing the custody id and slot when `cid_reuse`, clearing the
slot otherwise) — and when the oldest bundle is still live, check the slot
at `current % size` for wrap (`RESEND`/`BLOCK`/`DROP`) and break. -/
def loadScanLoop (sysnow : Nat) : Nat → Channel → LoadLocals → Channel × LoadLocals
  | 0, ch, l => (ch, l)
  | fuel + 1, ch, l =>
    if l.data.isNone ∧ ch.oldest_active_cid ≠ ch.current_active_cid then
      let ati := ch.oldest_active_cid % ch.attributes.active_table_size
      let slot := ch.active_table.getD ati default
      match slot.sid with
      | none =>
        -- entry vacant
        loadScanLoop sysnow fuel
          { ch with oldest_active_cid := ch.oldest_active_cid + 1 }
          { l with ati := ati, sid := none }
      | some sid =>
        match ch.bundleStore.retrieve sid with
        | some data =>
          if data.exprtime ≠ 0 ∧ sysnow ≥ data.exprtime then
            -- bundle expired: clear entry
            let r := ch.bundleStore.relinquish sid
            let chF := { ch with
              bundleStore := r.2,
              active_table := ch.active_table.set ati { slot with sid := none },
              oldest_active_cid := ch.oldest_active_cid + 1,
              stats := { ch.stats with expired := ch.stats.expired + 1 } }
            loadScanLoop sysnow fuel chF
              { l with ati := ati, sid := some sid, data := none }
          else if ch.attributes.timeout ≠ 0 ∧
                  sysnow ≥ slot.retx + ch.attributes.timeout then
            -- retransmit bundle
            let ch1 := { ch with
              oldest_active_cid := ch.oldest_active_cid + 1,
              stats := { ch.stats with retransmitted := ch.stats.retransmitted + 1 } }
            if ch.attributes.cid_reuse then
              loadScanLoop sysnow fuel ch1
                { l with ati := ati, sid := some sid, data := some data, newcid := false }
            else
              loadScanLoop sysnow fuel
                { ch1 with active_table := ch1.active_table.set ati { slot with sid := none } }
                { l with ati := ati, sid := some sid, data := some data }
          else
            -- oldest active bundle still active: check wrap, then break
            let wati := ch.current_active_cid % ch.attributes.active_table_size
            let wslot := ch.active_table.getD wati default
            match wslot.sid with
            | none => (ch, { l with data := none, ati := wati, sid := none })
            | some wsid =>
              let l1 := { l with data := none, ati := wati, sid := some wsid,
                                 flags := l.flags ||| BP_FLAG_ACTIVETABLEWRAP }
              if ch.attributes.wrap_response = BP_WRAP_RESEND then
                let ch1 := { ch with oldest_active_cid := ch.oldest_active_cid + 1 }
                match ch1.bundleStore.retrieve wsid with
                | none =>
                  let r := ch1.bundleStore.relinquish wsid
                  let chF := { ch1 with
                    bundleStore := r.2,
                    active_table := ch1.active_table.set wati { wslot with sid := none },
                    stats := { ch1.stats with lost := ch1.stats.lost + 1 } }
                  (chF, { l1 with flags := l1.flags ||| BP_FLAG_STOREFAILURE })
                | some d =>
                  let chF := { ch1 with
                    stats := { ch1.stats with retransmitted := ch1.stats.retransmitted + 1 } }
                  (chF, { l1 with data := some d, waits := l1.waits ++ [BP_WRAP_TIMEOUT] })
              else if ch.attributes.wrap_response = BP_WRAP_BLOCK then
                (ch, { l1 with status := BP_OVERFLOW, waits := l1.waits ++ [BP_WRAP_TIMEOUT] })
              else
                -- BP_WRAP_DROP
                let r := ch.bundleStore.relinquish wsid
                let chF := { ch with
                  oldest_active_cid := ch.oldest_active_cid + 1,
                  bundleStore := r.2,
                  active_table := ch.active_table.set wati { wslot with sid := none },
                  stats := { ch.stats with lost := ch.stats.lost + 1 } }
                (chF, l1)
        | none =>
          -- failed to retrieve bundle from storage
          let r := ch.bundleStore.relinquish sid
          let chF := { ch with
            bundleStore := r.2,
            active_table := ch.active_table.set ati { slot with sid := none },
            stats := { ch.stats with lost := ch.stats.lost + 1 } }
          loadScanLoop sysnow fuel chF
            { l with ati := ati, sid := some sid,
                     flags := l.flags ||| BP_FLAG_STOREFAILURE }
    else (ch, l)

/-- The fresh dequeue loop of `bplib_load` (lines 621-649): while nothing
is selected, dequeue from the selected store; drop expired bundles and
retry; on an empty store report `BP_TIMEOUT`. -/
def loadDequeueLoop (sysnow : Nat) : Nat → Channel → LoadLocals → Channel × LoadLocals
  | 0, ch, l => (ch, l)
  | fuel + 1, ch, l =>
    if l.data.isNone then
      let dq := (ch.getSel l.sel).dequeue
      match dq.1 with
      | some (sid, data) =>
        let ch1 := ch.setSel l.sel dq.2
        if data.exprtime ≠ 0 ∧ sysnow ≥ data.exprtime then
          -- bundle expired: clear entry and loop again
          let ch2 := ch1.setSel l.sel ((ch1.getSel l.sel).relinquish sid).2
          loadDequeueLoop sysnow fuel
            { ch2 with stats := { ch2.stats with expired := ch2.stats.expired + 1 } }
            { l with sid := none, data := none }
        else
          loadDequeueLoop sysnow fuel ch1 { l with sid := some sid, data := some data }
      | none =>
        -- no bundles in storage to send
        (ch.setSel l.sel dq.2, { l with status := BP_TIMEOUT })
    else (ch, l)

/-- The emission stage of `bplib_load` (lines 654-708): size/allocation
checks, custody-id assignment (`bundle_update`, which patches the CTEB of
the retained bundle — `v6_update` is modelled from spec section 4.2 as
writing the custody id into the bundle), the copy to the caller, and the
relinquish rules. -/
def loadEmit (sysnow : Nat) (bufNull : Bool) (bufSize : Nat) (mallocOk : Bool)
    (ch : Channel) (l : LoadLocals) : Channel × LoadLocals :=
  match l.data with
  | none => (ch, l)
  | some data =>
    if bufNull ∨ (bufSize : Int) ≥ (data.bundlesize : Int) then
      if bufNull ∧ ¬mallocOk then
        -- unable to acquire memory for bundle
        (ch.setSel l.sel (relinquishOpt (ch.getSel l.sel) l.sid)
          |> fun c => { c with stats := { c.stats with lost := c.stats.lost + 1 } },
         { l with status := BP_FAILEDMEM })
      else
        -- custody transfer bookkeeping
        let (ch1, l1, data1) :=
          if data.cteboffset ≠ 0 then
            let (chA, lA, dA) :=
              if l.newcid then
                let ati := ch.current_active_cid % ch.attributes.active_table_size
                let slot := ch.active_table.getD ati default
                let d' := { data with cid := ch.current_active_cid }
                let stA := match l.sid with
                  | some sid => (ch.getSel l.sel).updateItem sid d'
                  | none => ch.getSel l.sel
                ({ (ch.setSel l.sel stA) with
                     active_table := ch.active_table.set ati { slot with sid := l.sid },
                     current_active_cid := ch.current_active_cid + 1 },
                 { l with ati := ati }, d')
              else (ch, l, data)
            -- update retransmit time of the entry at `ati`
            let slotA := chA.active_table.getD lA.ati default
            ({ chA with active_table := chA.active_table.set lA.ati { slotA with retx := sysnow } },
             lA, dA)
          else (ch, l, data)
        -- load bundle to the caller
        let ch2 := { ch1 with
          stats := { ch1.stats with transmitted := ch1.stats.transmitted + 1 } }
        let ch3 :=
          if data1.cteboffset = 0 then
            ch2.setSel l1.sel (relinquishOpt (ch2.getSel l1.sel) l1.sid)
          else ch2
        (ch3, { l1 with status := data1.bundlesize })
    else
      -- bundle too large to fit inside buffer
      (ch.setSel l.sel (relinquishOpt (ch.getSel l.sel) l.sid)
        |> fun c => { c with stats := { c.stats with lost := c.stats.lost + 1 } },
       { l with status := BP_BUNDLETOOLARGE })

/-- Source `bplib_load` (lines 446-712).  Returns the final locals (whose `status`
is the C return value, `flags` the out-parameter, `waits` the instrumented
condition-variable waits) and the updated channel. -/
def bplib_load (ch : Channel) (bufNull : Bool) (bufSize : Nat) (mallocOk : Bool)
    (sysnow : Nat) (scanFuel dqFuel : Nat) : LoadLocals × Channel :=
  let l0 : LoadLocals :=
    { data := none, sid := none, ati := 0, newcid := true, sel := .dacs,
      status := BP_SUCCESS, flags := 0, waits := [] }
  -- try to send DACS bundle: `custody_send` (modelled as the identity),
  -- then a non-blocking dequeue of any stored DACS
  let dq := ch.dacsStore.dequeue
  let s1 : Channel × LoadLocals :=
    match dq.1 with
    | some (sid, data) =>
      ({ ch with dacsStore := dq.2 },
       { l0 with data := some data, sid := some sid,
                 flags := l0.flags ||| BP_FLAG_ROUTENEEDED })
    | none => ({ ch with dacsStore := dq.2 }, l0)
  -- try to send active bundle (if nothing to send)
  let s2 : Channel × LoadLocals :=
    if s1.2.data.isNone then
      loadScanLoop sysnow scanFuel s1.1 { s1.2 with sel := .bundle }
    else s1
  -- try to send stored bundle (if nothing to send)
  let s3 := loadDequeueLoop sysnow dqFuel s2.1 s2.2
  -- send bundle if ready to send
  let s4 := loadEmit sysnow bufNull bufSize mallocOk s3.1 s3.2
  (s4.2, s4.1)

/-! ## Receive path, acknowledgment branch (`lib/bplib.c`, `bplib_process`,
lines 717-770)

`bundle_receive`/`v6_read` and `custody_acknowledge` live in `v6.c` and
`custody.c`, which are not under the sources at hand.  Modelled from the
spec: a received DACS yields `BP_PENDINGACKNOWLEDGMENT`, upon which the
engine, under the active-table lock, runs the ACS reader against the
`acknowledge` callback for each custody id of each run, in increasing CID
order (spec section 4.5); the cid list of the record is taken as input
here.  The other `bundle_receive` outcomes (payload delivery, custody
receipt, expiry) do not touch the active table or the custody-id window. -/

/-- The acknowledgment branch of `bplib_process`: count the reception, run
`acknowledge` for each custody id counting the successes, and on a positive
count add it to `stats.acknowledged` and return `BP_SUCCESS` (also waking
the active-table condition variable). -/
def bplib_process_ack (ch : Channel) (cids : List Nat) : Int × Channel :=
  let ch0 := { ch with stats := { ch.stats with received := ch.stats.received + 1 } }
  let r := cids.foldl
    (fun (acc : Nat × Channel) cid =>
      let a := acknowledge acc.2 cid
      (if a.1 = BP_SUCCESS then acc.1 + 1 else acc.1, a.2))
    (0, ch0)
  if r.1 > 0 then
    (BP_SUCCESS,
     { r.2 with stats := { r.2.stats with acknowledged := r.2.stats.acknowledged + r.1 } })
  else ((r.1 : Int), r.2)

/-! ## The channel as a transition system (for the reachable-state claims)

An operation is one application-visible call on an open channel.  `load`
carries the caller's buffer shape, the wall-clock second at which the call
runs, and the fuel bounds for the two loops (the invariants below hold for
every fuel). -/

inductive ChOp where
  | store (paySize sysnow : Nat)
  | load (bufNull : Bool) (bufSize : Nat) (mallocOk : Bool) (sysnow scanFuel dqFuel : Nat)
  | processAck (cids : List Nat)
  | flush
  deriving Repr, DecidableEq

def ChOp.apply (ch : Channel) : ChOp → Channel
  | .store paySize sysnow => (bplib_store ch paySize sysnow).2
  | .load bufNull bufSize mallocOk sysnow scanFuel dqFuel =>
      (bplib_load ch bufNull bufSize mallocOk sysnow scanFuel dqFuel).2
  | .processAck cids => (bplib_process_ack ch cids).2
  | .flush => (bplib_flush ch).2

/-- The channel state after a sequence of operations on a freshly opened
channel. -/
def runOps (attrs : BpAttr) (ops : List ChOp) : Channel :=
  ops.foldl ChOp.apply (Channel.opened attrs)

/-- The number of non-vacant slots of the active table. -/
def nonVacantCount (ch : Channel) : Nat :=
  ((Finset.range ch.attributes.active_table_size).filter
    (fun i => (ch.active_table.getD i default).sid ≠ none)).card

/-! ## The active-table window invariant

`InvQ size oldest current table` says that every occupied slot is indexed
by some custody id inside the window `[oldest, current)`.  This is the
inductive invariant behind the (amended) channel bundle-count claim: it
yields `nonVacantCount ≤ current - oldest`. -/

def InvQ (s o c : Nat) (t : List ActiveSlot) : Prop :=
  t.length = s ∧ o ≤ c ∧
  ∀ i, (t.getD i default).sid ≠ none →
    ∃ k, o ≤ k ∧ k < c ∧ k % s = i

/-- The channel-level invariant. -/
def Inv (ch : Channel) : Prop :=
  InvQ ch.attributes.active_table_size ch.oldest_active_cid ch.current_active_cid
    ch.active_table

/-- A concrete custodial configuration within the modelled semantics:
table of four slots, custody requested, `BLOCK` wrap, no cid reuse. -/
def attrsScenario : BpAttr := { defaultAttrs with wrap_response := BP_WRAP_BLOCK }

/-- The claim-C5 configuration: `active_table_size = 2`,
`wrap_response = BLOCK`. -/
def attrsBlock2 : BpAttr :=
  { defaultAttrs with wrap_response := BP_WRAP_BLOCK, active_table_size := 2 }

/-! ## ACS record reader (`v6/dacs.c`, `dacs_read`, lines 102-162)

The ACS record layout constants are modelled from the spec (section 4.5):
byte 0 is the record type `0x40`, byte 1 the status byte whose bit 0 is the
success/ack flag.  `dacs.c` uses the newer `sdnv_read` of `v6/sdnv.c`,
which is not under the sources at hand; it is modelled from the spec
(section 4.1): consume bytes while the high bit is set, accumulating the
low 7 bits MSB-first, stop after the first byte with the high bit clear,
set `INCOMPLETE` when the buffer ends mid-SDNV, and return the advanced
index (`dacs_read` assigns the return value to `fill.index` and continues
reading there). -/

def BP_ACS_REC_TYPE_INDEX : Nat := 0

def BP_ACS_REC_STATUS_INDEX : Nat := 1

def BP_ACS_REC_TYPE : Nat := 0x40

def BP_ACS_ACK_MASK : Nat := 0x01

/-- Modelled from the spec: the loop of `sdnv_read` (`v6/sdnv.c`).  Returns
`(value, next index, flags)`. -/
def sdnvReadV6Loop (block : List Nat) (size : Nat) : Nat → Nat → Nat → Nat × Nat × Nat
  | 0, i, value => (value, i, BP_SDNV_INCOMPLETE)
  | fuel + 1, i, value =>
    if i < size then
      let b := block.getD i 0
      let v := ((value <<< 7) % UL_MOD) ||| (b &&& 0x7F)
      if b &&& 0x80 = 0 then (v, i + 1, 0)
      else sdnvReadV6Loop block size fuel (i + 1) v
    else (value, i, BP_SDNV_INCOMPLETE)

/-- Modelled from the spec: `sdnv_read` (`v6/sdnv.c`) at unbounded width,
starting at `index`. -/
def sdnv_read_v6 (block : List Nat) (size index : Nat) : Nat × Nat × Nat :=
  sdnvReadV6Loop block size (size - index) index 0

/-- The per-run acknowledgment loop of `dacs_read` (lines 135-141):
`for(i = 0; i < fill.value; i++) if(ack(ack_parm, cid.value + i) == BP_SUCCESS) ack_count++`.
The callback threads a state of type `σ` (the C `ack_parm`); the custody
ids passed to the callback are appended to the returned trace in call
order. -/
def dacsAckRun {σ : Type} (ack : σ → Nat → Int × σ) :
    Nat → σ → Nat → Nat → List Nat → σ × Nat × List Nat
  | 0, s, _, count, trace => (s, count, trace)
  | n + 1, s, cid, count, trace =>
    let r := ack s cid
    dacsAckRun ack n r.2 (cid + 1)
      (if r.1 = BP_SUCCESS then count + 1 else count) (trace ++ [cid])

/-- The fill-processing loop of `dacs_read` (lines 121-151): while the
index is inside the record, read a fill SDNV; for a *run* fill (when the
status's ack bit is set), acknowledge each custody id of the run; advance
the next custody id by the fill in every case.  The fuel passed by the
wrapper exceeds the record size, and every iteration advances the index by
at least one byte, so the loop always reaches its C exit condition. -/
def dacsReadLoop {σ : Type} (rec : List Nat) (recSize : Nat) (ack : σ → Nat → Int × σ)
    (ack_success : Bool) :
    Nat → σ → Nat → Nat → Bool → Nat → List Nat → Int × σ × List Nat
  | 0, s, _, _, _, count, trace => ((count : Int), s, trace)
  | fuel + 1, s, cidValue, fillIndex, cidin, count, trace =>
    if fillIndex < recSize then
      let r := sdnv_read_v6 rec recSize fillIndex
      if r.2.2 ≠ 0 then (BP_BUNDLEPARSEERR, s, trace)
      else
        if cidin ∧ ack_success then
          let a := dacsAckRun ack r.1 s cidValue count trace
          dacsReadLoop rec recSize ack ack_success fuel a.1 (cidValue + r.1) r.2.1
            false a.2.1 a.2.2
        else
          dacsReadLoop rec recSize ack ack_success fuel s (cidValue + r.1) r.2.1
            true count trace
    else ((count : Int), s, trace)

/-- Source `dacs_read` (`v6/dacs.c` lines 102-162): read the status byte and the
first custody id (at index 2), then process the alternating run/gap fills,
acknowledging each custody id of each run when the ack bit is set.
Returns the number of custody ids whose acknowledgment reported
`BP_SUCCESS`, the final callback state, and the trace of acknowledged
custody ids in call order. -/
def dacs_read {σ : Type} (rec : List Nat) (recSize : Nat) (ack : σ → Nat → Int × σ)
    (s : σ) : Int × σ × List Nat :=
  let acs_status := rec.getD BP_ACS_REC_STATUS_INDEX 0
  let ack_success := acs_status &&& BP_ACS_ACK_MASK = BP_ACS_ACK_MASK
  let r := sdnv_read_v6 rec recSize 2
  if r.2.2 ≠ 0 then (BP_BUNDLEPARSEERR, s, [])
  else dacsReadLoop rec recSize ack (decide ack_success) (recSize + 1) s r.1 r.2.1
    true 0 []

/-- The claim-C9 mock channel: a ten-slot active table with the storage ids
of custody ids 1..10 installed (cid `i` lives in slot `i % 10`), all
retained in the bundle store. -/
def mockDacsChannel : Channel :=
  { Channel.opened { defaultAttrs with active_table_size := 10 } with
    active_table :=
      [⟨some 10, 0⟩, ⟨some 1, 0⟩, ⟨some 2, 0⟩, ⟨some 3, 0⟩, ⟨some 4, 0⟩,
       ⟨some 5, 0⟩, ⟨some 6, 0⟩, ⟨some 7, 0⟩, ⟨some 8, 0⟩, ⟨some 9, 0⟩]
    bundleStore :=
      ⟨[], [(1, ⟨0, 1, 10, 0⟩), (2, ⟨0, 1, 10, 0⟩), (3, ⟨0, 1, 10, 0⟩),
            (4, ⟨0, 1, 10, 0⟩), (5, ⟨0, 1, 10, 0⟩), (6, ⟨0, 1, 10, 0⟩),
            (7, ⟨0, 1, 10, 0⟩), (8, ⟨0, 1, 10, 0⟩), (9, ⟨0, 1, 10, 0⟩),
            (10, ⟨0, 1, 10, 0⟩)], 11⟩ }

/-! ## Red-black tree of CID ranges (`src/bplib_rb_tree.c`)

The node pool (`tree->node_block`) is an arena: node pointers are indices
into `nodes`, `none` is `NULL`.  Every function below mirrors its C
namesake; tree mutations thread the `RbTree` value, which preserves the
C's aliasing semantics exactly.  Loops over parent/child chains take fuel
(an upper bound on the chain length; the callers pass the arena size plus
one, which a pointer chain in a pool of that size cannot exceed without
revisiting a node).  Node values and offsets are `uint32_t`; additions
wrap modulo `2^32`. -/

def U32 : Nat := 2 ^ 32

structure RbNode where
  value : Nat
  offset : Nat
  color : Bool
  parent : Option Nat
  left : Option Nat
  right : Option Nat
  deriving Repr, DecidableEq

instance : Inhabited RbNode := ⟨⟨0, 0, false, none, none, none⟩⟩

structure RbTree where
  nodes : List RbNode
  size : Nat
  max_size : Nat
  root : Option Nat
  free_node_head : Option Nat
  free_node_tail : Option Nat
  deriving Repr, DecidableEq

def RbTree.getN (t : RbTree) (i : Nat) : RbNode := t.nodes.getD i default

def RbTree.setN (t : RbTree) (i : Nat) (n : RbNode) : RbTree :=
  { t with nodes := t.nodes.set i n }

/-- Source `pop_free_node` (lines 46-60). -/
def pop_free_node (t : RbTree) : Option Nat × RbTree :=
  match t.free_node_tail with
  | none => (none, t)
  | some f =>
    let t1 := { t with free_node_tail := (t.getN f).left }
    let t2 := if t1.free_node_tail = none then { t1 with free_node_head := none } else t1
    (some f, { t2 with size := t2.size + 1 })

/-- Source `push_free_node` (lines 68-86). -/
def push_free_node (t : RbTree) (i : Nat) : RbTree :=
  let t1 := t.setN i { t.getN i with right := t.free_node_head, left := none }
  let t2 := { t1 with size := t1.size - 1 }
  match t2.free_node_head with
  | none => { t2 with free_node_head := some i, free_node_tail := some i }
  | some h =>
    let t3 := t2.setN h { t2.getN h with left := some i }
    { t3 with free_node_head := some i }

/-- Source `set_black` (lines 93-96). -/
def set_black (t : RbTree) (i : Nat) : RbTree := t.setN i { t.getN i with color := false }

/-- Source `set_red` (lines 103-106). -/
def set_red (t : RbTree) (i : Nat) : RbTree := t.setN i { t.getN i with color := true }

/-- Source `is_black` (lines 127-130): `NULL` nodes are black. -/
def is_black (t : RbTree) : Option Nat → Bool
  | none => true
  | some i => !(t.getN i).color

/-- Source `is_red` (lines 138-141). -/
def is_red (t : RbTree) : Option Nat → Bool
  | none => false
  | some i => (t.getN i).color

/-- Source `get_grandparent` (lines 150-158). -/
def get_grandparent (t : RbTree) (i : Nat) : Option Nat :=
  match (t.getN i).parent with
  | none => none
  | some p => (t.getN p).parent

/-- Source `is_root` (lines 166-169). -/
def is_root (t : RbTree) (i : Nat) : Bool := (t.getN i).parent = none

/-- Source `is_left_child` (lines 178-181). -/
def is_left_child (t : RbTree) (i : Nat) : Bool :=
  match (t.getN i).parent with
  | none => false
  | some p => (t.getN p).left = some i

/-- Source `get_sibling` (lines 189-203). -/
def get_sibling (t : RbTree) (i : Nat) : Option Nat :=
  match (t.getN i).parent with
  | none => none
  | some p => if is_left_child t i then (t.getN p).right else (t.getN p).left

/-- Source `get_uncle` (lines 211-224). -/
def get_uncle (t : RbTree) (i : Nat) : Option Nat :=
  match (t.getN i).parent with
  | none => none
  | some p =>
    match get_grandparent t i with
    | none => none
    | some _ => get_sibling t p

/-- Source `has_left_child` (lines 232-235). -/
def has_left_child (t : RbTree) (i : Nat) : Bool := (t.getN i).left.isSome

/-- Source `has_right_child` (lines 243-246). -/
def has_right_child (t : RbTree) (i : Nat) : Bool := (t.getN i).right.isSome

/-- Source `swap_parents` (lines 265-283). -/
def swap_parents (t : RbTree) (n1 n2 : Nat) : RbTree :=
  let p1 := (t.getN n1).parent
  let t1 := t.setN n2 { t.getN n2 with parent := p1 }
  let t2 :=
    match p1 with
    | none => { t1 with root := some n2 }
    | some p =>
      if (t1.getN p).left = some n1 then t1.setN p { t1.getN p with left := some n2 }
      else t1.setN p { t1.getN p with right := some n2 }
  t2.setN n1 { t2.getN n1 with parent := some n2 }

/-- Source `rotate_left` (lines 300-311).  The C dereferences `node->right`
unconditionally; the `none` fallback is unreachable on the executed
paths. -/
def rotate_left (t : RbTree) (x : Nat) : RbTree :=
  match (t.getN x).right with
  | none => t
  | some np =>
    let t1 := t.setN x { t.getN x with right := (t.getN np).left }
    let t2 := t1.setN np { t1.getN np with left := some x }
    let t3 :=
      match (t2.getN x).right with
      | some r => t2.setN r { t2.getN r with parent := some x }
      | none => t2
    swap_parents t3 x np

/-- Source `rotate_right` (lines 328-340). -/
def rotate_right (t : RbTree) (x : Nat) : RbTree :=
  match (t.getN x).left with
  | none => t
  | some np =>
    let t1 := t.setN x { t.getN x with left := (t.getN np).right }
    let t2 := t1.setN np { t1.getN np with right := some x }
    let t3 :=
      match (t2.getN x).left with
      | some l => t2.setN l { t2.getN l with parent := some x }
      | none => t2
    swap_parents t3 x np

/-- Source `populate_rb_node` (lines 348-355). -/
def populate_rb_node (t : RbTree) (value : Nat) (i : Nat) : RbTree :=
  t.setN i { value := value, offset := 1, color := (t.getN i).color,
             parent := none, left := none, right := none }

/-- Source `create_black_node` (lines 364-375). -/
def create_black_node (value : Nat) (t : RbTree) : Option Nat × RbTree :=
  match pop_free_node t with
  | (none, t1) => (none, t1)
  | (some i, t1) => (some i, set_black (populate_rb_node t1 value i) i)

/-- Source `create_red_node` (lines 384-395). -/
def create_red_node (value : Nat) (t : RbTree) : Option Nat × RbTree :=
  match pop_free_node t with
  | (none, t1) => (none, t1)
  | (some i, t1) => (some i, set_red (populate_rb_node t1 value i) i)

/-- Source `insert_child` (lines 405-411); `isLeft` selects which of
`parent->left`/`parent->right` the C caller passed as `child_ptr`. -/
def insert_child (t : RbTree) (node parent : Nat) (isLeft : Bool) : RbTree :=
  let t1 := t.setN node { t.getN node with parent := some parent }
  if isLeft then t1.setN parent { t1.getN parent with left := some node }
  else t1.setN parent { t1.getN parent with right := some node }

/-- The `while (has_right_child(sucessor))` walk of `get_left_sucessor`. -/
def walkRight (t : RbTree) : Nat → Nat → Nat
  | 0, j => j
  | fuel + 1, j =>
    match (t.getN j).right with
    | none => j
    | some r => walkRight t fuel r

/-- The `while (has_left_child(sucessor))` walk of `get_right_sucessor`. -/
def walkLeft (t : RbTree) : Nat → Nat → Nat
  | 0, j => j
  | fuel + 1, j =>
    match (t.getN j).left with
    | none => j
    | some l => walkLeft t fuel l

/-- Source `get_left_sucessor` (lines 452-465): the rightmost node of the left
subtree. -/
def get_left_sucessor (t : RbTree) (i : Nat) : Option Nat :=
  match (t.getN i).left with
  | none => none
  | some l => some (walkRight t (t.nodes.length + 1) l)

/-- Source `get_right_sucessor` (lines 482-495): the leftmost node of the right
subtree. -/
def get_right_sucessor (t : RbTree) (i : Nat) : Option Nat :=
  match (t.getN i).right with
  | none => none
  | some r => some (walkLeft t (t.nodes.length + 1) r)

/-- Source `get_sucessor` (lines 503-512). -/
def get_sucessor (t : RbTree) (i : Nat) : Option Nat :=
  match get_left_sucessor t i with
  | some s => some s
  | none => get_right_sucessor t i

/-- Source `swap_values` (lines 520-525). -/
def swap_values (t : RbTree) (n1 n2 : Nat) : RbTree :=
  let temp := (t.getN n1).value
  let t1 := t.setN n1 { t.getN n1 with value := (t.getN n2).value }
  t1.setN n2 { t1.getN n2 with value := temp }

/-- Source `swap_offsets` (lines 533-538). -/
def swap_offsets (t : RbTree) (n1 n2 : Nat) : RbTree :=
  let temp := (t.getN n1).offset
  let t1 := t.setN n1 { t.getN n1 with offset := (t.getN n2).offset }
  t1.setN n2 { t1.getN n2 with offset := temp }

/-- Source `replace_node` (lines 546-566).  Only ever called on non-root nodes;
the `none`-parent fallback is unreachable on the executed paths. -/
def replace_node (t : RbTree) (node : Nat) (child : Option Nat) : RbTree :=
  match (t.getN node).parent with
  | none => t
  | some p =>
    let t1 :=
      if is_left_child t node then t.setN p { t.getN p with left := child }
      else t.setN p { t.getN p with right := child }
    match child with
    | some c => t1.setN c { t1.getN c with parent := some p }
    | none => t1

/-- Source `delete_case_6` (lines 590-607).  The C dereferences the sibling and
its child unconditionally; `none` fallbacks are unreachable on the
executed paths. -/
def delete_case_6 (t : RbTree) (i : Nat) : RbTree :=
  match get_sibling t i, (t.getN i).parent with
  | some s, some p =>
    let t1 := t.setN s { t.getN s with color := (t.getN p).color }
    let t2 := set_black t1 p
    if is_left_child t2 i then
      let t3 := match (t2.getN s).right with
        | some sr => set_black t2 sr
        | none => t2
      rotate_left t3 p
    else
      let t3 := match (t2.getN s).left with
        | some sl => set_black t2 sl
        | none => t2
      rotate_right t3 p
  | _, _ => t

/-- Source `delete_case_5` (lines 631-650).  Note the source's asymmetry: the
mirror branch omits the recoloring (`set_red(sibling)`/
`set_black(sibling->right)`) before the rotation. -/
def delete_case_5 (t : RbTree) (i : Nat) : RbTree :=
  let sibling := get_sibling t i
  let t' :=
    if is_black t sibling then
      match sibling with
      | some s =>
        let isLeft := is_left_child t i
        if isLeft ∧ is_black t (t.getN s).right ∧ is_red t (t.getN s).left then
          let t1 := set_red t s
          let t2 := match (t1.getN s).left with
            | some sl => set_black t1 sl
            | none => t1
          rotate_right t2 s
        else if ¬isLeft ∧ is_black t (t.getN s).left ∧ is_red t (t.getN s).right then
          rotate_left t s
        else t
      | none => t
    else t
  delete_case_6 t' i

/-- Source `delete_case_4` (lines 674-691). -/
def delete_case_4 (t : RbTree) (i : Nat) : RbTree :=
  let sibling := get_sibling t i
  let parent := (t.getN i).parent
  match sibling, parent with
  | some s, some p =>
    if is_red t (some p) ∧ is_black t (some s) ∧
        is_black t (t.getN s).left ∧ is_black t (t.getN s).right then
      set_black (set_red t s) p
    else delete_case_5 t i
  | _, _ => delete_case_5 t i

/-- Source `delete_case_1`/`delete_case_2`/`delete_case_3` (lines 695-812): the
rebalancing chain, with `delete_case_3`'s recursive call to
`delete_case_1` on the parent bounded by fuel. -/
def delete_case_1 : Nat → RbTree → Nat → RbTree
  | 0, t, _ => t
  | fuel + 1, t, i =>
    if is_root t i then t
    else
      -- delete_case_2
      let t1 :=
        if is_red t (get_sibling t i) then
          match (t.getN i).parent, get_sibling t i with
          | some p, some s =>
            let tA := set_black (set_red t p) s
            if is_left_child tA i then rotate_left tA p else rotate_right tA p
          | _, _ => t
        else t
      -- delete_case_3
      let sibling := get_sibling t1 i
      let parent := (t1.getN i).parent
      match sibling, parent with
      | some s, some p =>
        if is_black t1 (some p) ∧ is_black t1 (some s) ∧
            is_black t1 (t1.getN s).left ∧ is_black t1 (t1.getN s).right then
          delete_case_1 fuel (set_red t1 s) p
        else delete_case_4 t1 i
      | _, _ => delete_case_4 t1 i

/-- Source `delete_one_child` (lines 827-873). -/
def delete_one_child (fuel : Nat) (t : RbTree) (node : Nat) : RbTree :=
  let child := if has_left_child t node then (t.getN node).left else (t.getN node).right
  match child with
  | none =>
    let t1 := if is_black t (some node) then delete_case_1 fuel t node else t
    let t2 := replace_node t1 node none
    push_free_node t2 node
  | some c =>
    let t1 := replace_node t node (some c)
    let t2 :=
      if is_black t1 (some node) then
        if is_red t1 (some c) then set_black t1 c
        else delete_case_1 fuel t1 c
      else t1
    push_free_node t2 node

/-- Source `delete_node` (lines 881-906). -/
def delete_node (fuel : Nat) (t : RbTree) (node : Nat) : RbTree :=
  match get_sucessor t node with
  | none =>
    if is_root t node then
      { push_free_node t node with root := none }
    else delete_one_child fuel t node
  | some r =>
    let t1 := swap_offsets (swap_values t node r) node r
    delete_one_child fuel t1 r

/-- Source `are_consecutive` (lines 915-918), on `uint32_t`. -/
def are_consecutive (v1 v2 : Nat) : Bool := (v1 + 1) % U32 == v2

/-- Source `is_full` (lines 1194-1197). -/
def RbTree.is_full (t : RbTree) : Bool := t.size == t.max_size

/-- Source `is_empty` (lines 1183-1186). -/
def RbTree.is_empty (t : RbTree) : Bool := t.size == 0

/-- The descent loop of `try_binary_insert_or_merge` (lines 948-1043). -/
def tbiLoop (value : Nat) : Nat → RbTree → Nat → Option Nat × RbTree
  | 0, t, _ => (none, t)
  | fuel + 1, t, node =>
    let n := t.getN node
    if are_consecutive value n.value then
      -- the new value extends the node down
      match get_left_sucessor t node with
      | some s =>
        if are_consecutive (((t.getN s).value + (t.getN s).offset - 1) % U32) value then
          let t1 := t.setN node { n with value := (t.getN s).value,
                                         offset := (n.offset + (t.getN s).offset + 1) % U32 }
          (none, delete_node (t1.nodes.length + 1) t1 s)
        else
          (none, t.setN node { n with value := value, offset := (n.offset + 1) % U32 })
      | none =>
        (none, t.setN node { n with value := value, offset := (n.offset + 1) % U32 })
    else if value < n.value then
      match n.left with
      | some l => tbiLoop value fuel t l
      | none =>
        match create_red_node value t with
        | (none, t1) => (none, t1)
        | (some nn, t1) => (some nn, insert_child t1 nn node true)
    else if are_consecutive ((n.value + n.offset - 1) % U32) value then
      -- the new value extends the node up
      match get_right_sucessor t node with
      | some s =>
        if are_consecutive value (t.getN s).value then
          let t1 := t.setN node { n with offset := (n.offset + (t.getN s).offset + 1) % U32 }
          (none, delete_node (t1.nodes.length + 1) t1 s)
        else
          (none, t.setN node { n with offset := (n.offset + 1) % U32 })
      | none =>
        (none, t.setN node { n with offset := (n.offset + 1) % U32 })
    else if value > n.value then
      match n.right with
      | some r => tbiLoop value fuel t r
      | none =>
        match create_red_node value t with
        | (none, t1) => (none, t1)
        | (some nn, t1) => (some nn, insert_child t1 nn node false)
    else
      -- duplicate
      (none, t)

/-- Source `try_binary_insert_or_merge` (lines 931-1046). -/
def try_binary_insert_or_merge (value : Nat) (t : RbTree) : Option Nat × RbTree :=
  match t.root with
  | none =>
    if t.is_full then (none, t)
    else
      match create_black_node value t with
      | (r, t1) => (r, { t1 with root := r })
  | some root => tbiLoop value (t.nodes.length + 1) t root

/-- Source `try_insert_rebalance` (lines 1062-1132). -/
def try_insert_rebalance : Nat → RbTree → Nat → RbTree
  | 0, t, _ => t
  | fuel + 1, t, node =>
    let parent := (t.getN node).parent
    let uncle := get_uncle t node
    match parent with
    | none => set_black t node
    | some p =>
      if is_black t (some p) then t
      else if uncle ≠ none ∧ is_red t uncle then
        let t1 := set_black t p
        let t2 := match uncle with
          | some u => set_black t1 u
          | none => t1
        match get_grandparent t2 node with
        | some g => try_insert_rebalance fuel (set_red t2 g) g
        | none => t2
      else
        match get_grandparent t node with
        | none => t
        | some g =>
          let s :=
            if (t.getN g).left = some p ∧ (t.getN p).right = some node then
              let tA := rotate_left t p
              (tA, ((tA.getN node).left).getD node)
            else if (t.getN g).right = some p ∧ (t.getN p).left = some node then
              let tA := rotate_right t p
              (tA, ((tA.getN node).right).getD node)
            else (t, node)
          let tB := s.1
          let nodeB := s.2
          let g2 := get_grandparent tB nodeB
          let p2 := (tB.getN nodeB).parent
          let tC :=
            match g2 with
            | some gg =>
              if is_left_child tB nodeB then rotate_right tB gg else rotate_left tB gg
            | none => tB
          let tD := match p2 with
            | some pp => set_black tC pp
            | none => tC
          match g2 with
          | some gg => set_red tD gg
          | none => tD

/-- Source `insert` (lines 1207-1220). -/
def rb_insert (value : Nat) (t : RbTree) : Bool × RbTree :=
  match try_binary_insert_or_merge value t with
  | (none, t1) => (false, t1)
  | (some n, t1) => (true, try_insert_rebalance (t1.nodes.length + 1) t1 n)

/-- Source `create_rb_tree` (lines 1144-1175): size starts at `max_size` and every
arena entry is pushed onto the free queue. -/
def create_rb_tree (max_size : Nat) : RbTree :=
  (List.range max_size).foldl push_free_node
    { nodes := List.replicate max_size default, size := max_size, max_size := max_size,
      root := none, free_node_head := none, free_node_tail := none }

/-- Fold a list of values through `insert`. -/
def insertSeq (vals : List Nat) (t : RbTree) : RbTree :=
  vals.foldl (fun t v => (rb_insert v t).2) t

/-! ### Validity checkers (spec section 4.7, "Validity invariants") -/

/-- In-order list of `(value, offset)` ranges. -/
def inorderAux (t : RbTree) : Nat → Option Nat → List (Nat × Nat)
  | 0, _ => []
  | _, none => []
  | fuel + 1, some i =>
    inorderAux t fuel (t.getN i).left ++ [((t.getN i).value, (t.getN i).offset)] ++
      inorderAux t fuel (t.getN i).right

def rbInorder (t : RbTree) : List (Nat × Nat) :=
  inorderAux t (t.nodes.length + 1) t.root

/-- No red node has a red child. -/
def noRedRed (t : RbTree) : Nat → Option Nat → Bool
  | 0, _ => true
  | _, none => true
  | fuel + 1, some i =>
    (!(t.getN i).color ∨ (is_black t (t.getN i).left ∧ is_black t (t.getN i).right)) &&
      noRedRed t fuel (t.getN i).left && noRedRed t fuel (t.getN i).right

/-- Black depth of every root-to-null path, `none` when unequal. -/
def blackDepth (t : RbTree) : Nat → Option Nat → Option Nat
  | 0, _ => none
  | _, none => some 1
  | fuel + 1, some i =>
    match blackDepth t fuel (t.getN i).left, blackDepth t fuel (t.getN i).right with
    | some a, some b =>
      if a = b then some (a + (if (t.getN i).color then 0 else 1)) else none
    | _, _ => none

/-- The in-order ranges are strictly increasing in value with no two
ranges adjacent: any consecutive `(v1,o1)`, `(v2,o2)` satisfy `v1 < v2`
and `v1 + o1 < v2`. -/
def rangesSeparated : List (Nat × Nat) → Bool
  | [] => true
  | [_] => true
  | a :: b :: rest => (decide (a.1 < b.1) && decide (a.1 + a.2 < b.1)) &&
      rangesSeparated (b :: rest)

/-- The four validity invariants of spec section 4.7. -/
def rbValid (t : RbTree) : Bool :=
  is_black t t.root &&
  noRedRed t (t.nodes.length + 1) t.root &&
  (blackDepth t (t.nodes.length + 1) t.root).isSome &&
  rangesSeparated (rbInorder t)

/-- C2: the SDNV round-trip `read(write(v,w)) = v` fails on the code for
`v = 1` at every width (evaluated here at widths `w = 1` and `w = 8`): the
write loop of `bplib_sdnv_write` runs from `maxbytes + index` down to
`index`, emitting `maxbytes + 1` bytes whose last byte keeps the
continuation bit set (the terminator test is `i == 0`, not the final loop
position), so the encoding of `1` at width 1 is `0x00 0x81` and
`bplib_sdnv_read` stops at the spurious leading `0x00`, returning value `0`
with neither `OVERFLOW` nor `INCOMPLETE` set. -/
theorem sdnv_roundtrip_code_bug :
    (let w := bplib_sdnv_write (List.replicate 10 0) 10 ⟨1, 0, 1⟩ 0
     let r := bplib_sdnv_read w.2.1 10 ⟨0, 0, -1⟩ 0
     w.1 = 1 ∧ w.2.2 = 0 ∧ w.2.1 = [0x00, 0x81, 0, 0, 0, 0, 0, 0, 0, 0] ∧
       r.2.1.value = 0 ∧ r.2.1.value ≠ 1 ∧ r.2.2 = 0) ∧
    (let w := bplib_sdnv_write (List.replicate 12 0) 12 ⟨1, 0, 8⟩ 0
     let r := bplib_sdnv_read w.2.1 12 ⟨0, 0, -1⟩ 0
     w.1 = 8 ∧ w.2.2 = 0 ∧ r.2.1.value = 0 ∧ r.2.1.value ≠ 1 ∧ r.2.2 = 0) := by
  decide

/-- C4 counterexample: `bplib_eid2ipn` does *not* reject the zero-valued
node component: `ipn:0.1` parses successfully to node 0, service 1.  In the
source, a parsed value of `0` is rejected only in conjunction with
`errno == ERANGE`, which `strtoul` never sets for the input `"0"`. -/
theorem eid2ipn_accepts_zero_component :
    bplib_eid2ipn ("ipn:0.1".toList) 7 = .ok (0, 1) := by rfl

/-- C4 (amended): `ipn:1.1` parses to `(1,1)`; every string shorter than 7
bytes is rejected; every admissible-length string not beginning with
`ipn:` is rejected; every admissible-length `ipn:`-string without a dot
after the scheme is rejected; but a zero-valued component is accepted
(`ipn:0.1` parses to `(0,1)`). -/
theorem eid2ipn_boundaries (eid : List Char) (len : Nat) :
    (bplib_eid2ipn ("ipn:1.1".toList) 7 = .ok (1, 1)) ∧
    (len < 7 → bplib_eid2ipn eid len = .error BP_INVALIDEID) ∧
    (7 ≤ len → len ≤ BP_MAX_EID_STRING →
      (eid.getD 0 ' ' ≠ 'i' ∨ eid.getD 1 ' ' ≠ 'p' ∨ eid.getD 2 ' ' ≠ 'n' ∨
        eid.getD 3 ' ' ≠ ':') →
      bplib_eid2ipn eid len = .error BP_INVALIDEID) ∧
    (7 ≤ len → len ≤ BP_MAX_EID_STRING →
      '.' ∉ (eid.drop 4).take (len - 4) →
      bplib_eid2ipn eid len = .error BP_INVALIDEID) ∧
    (bplib_eid2ipn ("ipn:0.1".toList) 7 = .ok (0, 1)) := by
  refine ⟨by rfl, ?_, ?_, ?_, by rfl⟩
  · intro h
    unfold bplib_eid2ipn
    rw [if_pos h]
  · intro h1 h2 h3
    unfold bplib_eid2ipn
    rw [if_neg (by omega), if_neg (by omega), if_pos h3]
  · intro h1 h2 hdot
    unfold bplib_eid2ipn
    rw [if_neg (by omega), if_neg (by omega)]
    by_cases hpre : (eid.getD 0 ' ' ≠ 'i' ∨ eid.getD 1 ' ' ≠ 'p' ∨
        eid.getD 2 ' ' ≠ 'n' ∨ eid.getD 3 ' ' ≠ ':')
    · rw [if_pos hpre]
    · rw [if_neg hpre]
      have hnone : ((eid.drop 4).take (len - 4)).findIdx? (· = '.') = none := by
        rw [List.findIdx?_eq_none_iff]
        intro x hx
        simp only [decide_eq_false_iff_not]
        intro heq
        exact hdot (heq ▸ hx)
      simp [hnone]

/-- C4 witness: the amended theorem applied at the claim's own boundary
examples, discharging each hypothesis: `foo:1.1` (bad scheme) and
`ipn:11111` (no dot) are rejected, `ipn:1` is shorter than 7 bytes. -/
theorem eid2ipn_boundaries_witness :
    bplib_eid2ipn ("foo:1.1".toList) 7 = .error BP_INVALIDEID ∧
    bplib_eid2ipn ("ipn:11111".toList) 9 = .error BP_INVALIDEID ∧
    bplib_eid2ipn ("ipn:1".toList) 5 = .error BP_INVALIDEID :=
  ⟨(eid2ipn_boundaries ("foo:1.1".toList) 7).2.2.1 (by norm_num) (by decide)
      (by left; decide),
   (eid2ipn_boundaries ("ipn:11111".toList) 9).2.2.2.1 (by norm_num) (by decide)
      (by decide),
   (eid2ipn_boundaries ("ipn:1".toList) 5).2.1 (by norm_num)⟩

/-- C1 counterpart, part 1: after *any* `bplib_config` call in `WRITE` mode
that returns `BP_SUCCESS`, the channel's `prebuilt` flag is `true` — the
source executes `if(setopt) ch->bundle.prebuilt = true;` (line 387), the
opposite of the specified `prebuilt = false`. -/
theorem config_write_sets_prebuilt_true (ch : Channel) (opt val : Int) (len : Nat) :
    (bplib_config ch BP_OPT_MODE_WRITE opt val len).1 = BP_SUCCESS →
    (bplib_config ch BP_OPT_MODE_WRITE opt val len).2.1.bundle_prebuilt = true := by
  intro h
  simp only [bplib_config] at h ⊢
  split at h
  · simp [BP_PARMERR, BP_SUCCESS] at h
  · simp

/-- C1 witness: a concrete `WRITE` of the `lifetime` attribute on a freshly
opened channel succeeds and leaves `prebuilt = true`, and `bundle_send` on
the resulting channel does *not* invoke `v6_build` (no rebuild before the
next send). -/
theorem config_write_sets_prebuilt_true_witness :
    (bplib_config (Channel.opened defaultAttrs) BP_OPT_MODE_WRITE BP_OPT_LIFETIME 5
        sizeof_int).1 = BP_SUCCESS ∧
    (bplib_config (Channel.opened defaultAttrs) BP_OPT_MODE_WRITE BP_OPT_LIFETIME 5
        sizeof_int).2.1.bundle_prebuilt = true ∧
    (bundle_send
        (bplib_config (Channel.opened defaultAttrs) BP_OPT_MODE_WRITE BP_OPT_LIFETIME 5
          sizeof_int).2.1 4 0).2.2 = false :=
  ⟨by decide,
   config_write_sets_prebuilt_true (Channel.opened defaultAttrs) BP_OPT_LIFETIME 5
     sizeof_int (by decide),
   by decide⟩

/-- After filtering out every pair keyed `sid`, a lookup of `sid` fails. -/
theorem lookup_filter_ne {α : Type} (l : List (Nat × α)) (sid : Nat) :
    (l.filter fun p => !(p.1 == sid)).lookup sid = none := by
  induction l with
  | nil => rfl
  | cons hd tl ih =>
    by_cases h : hd.1 = sid
    · simp [List.filter, h, ih]
    · simp only [List.filter]
      have h2 : (hd.1 == sid) = false := by simpa using h
      have h3 : (sid == hd.1) = false := by simpa using Ne.symm h
      simp [h2, List.lookup, h3, ih]

/-- C10: whenever `bplib_accept` dequeues a payload and cannot deliver it —
a non-null buffer smaller than the payload, or a failed allocation for a
null buffer — it returns a negative status, the payload's storage id is no
longer retained (it was relinquished), the payload is gone from the queue,
and `stats.lost` is incremented. -/
theorem accept_failure_drops_payload (ch : Channel) (bufNull : Bool) (size : Int)
    (mallocOk : Bool) (sid : Nat) (pay : List Nat) (rest : List Nat)
    (hq : ch.payloadStore.queue = sid :: rest)
    (hit : ch.payloadStore.items.lookup sid = some pay)
    (hfail : (¬bufNull ∧ size < pay.length) ∨ (bufNull ∧ ¬mallocOk)) :
    (bplib_accept ch bufNull size mallocOk).1 < 0 ∧
    (bplib_accept ch bufNull size mallocOk).2.payloadStore.queue = rest ∧
    (bplib_accept ch bufNull size mallocOk).2.payloadStore.items.lookup sid = none ∧
    (bplib_accept ch bufNull size mallocOk).2.stats.lost = ch.stats.lost + 1 := by
  have hsome : ((ch.payloadStore.items.lookup sid).isSome) = true := by rw [hit]; rfl
  rcases hfail with ⟨hb, hsz⟩ | ⟨hb, hm⟩
  · -- non-null buffer too small: BP_PAYLOADTOOLARGE path
    simp only [bplib_accept, Storage.dequeue, hq, hit, Storage.relinquish, hsome]
    rw [if_neg (by push_neg; exact ⟨by simpa using hb, by exact_mod_cast hsz⟩)]
    refine ⟨by norm_num [BP_PAYLOADTOOLARGE], rfl, ?_, rfl⟩
    simp [lookup_filter_ne]
  · -- null buffer, malloc failure: BP_FAILEDMEM path
    simp only [bplib_accept, Storage.dequeue, hq, hit, Storage.relinquish, hsome]
    rw [if_pos (Or.inl (by simpa using hb)), if_pos ⟨by simpa using hb, by simpa using hm⟩]
    refine ⟨by norm_num [BP_FAILEDMEM], rfl, ?_, rfl⟩
    simp [lookup_filter_ne]

/-- C10 witness: both failure modes at a concrete channel holding one
2-byte payload under sid 1: a 1-byte caller buffer, and a failed
allocation. -/
theorem accept_failure_drops_payload_witness :
    (let ch : Channel := { Channel.opened defaultAttrs with
        payloadStore := ⟨[1], [(1, [42, 43])], 2⟩ }
     (bplib_accept ch false 1 true).1 < 0 ∧
     (bplib_accept ch false 1 true).2.payloadStore.queue = [] ∧
     (bplib_accept ch false 1 true).2.payloadStore.items.lookup 1 = none ∧
     (bplib_accept ch false 1 true).2.stats.lost = 1) ∧
    (let ch : Channel := { Channel.opened defaultAttrs with
        payloadStore := ⟨[1], [(1, [42, 43])], 2⟩ }
     (bplib_accept ch true 0 false).1 < 0 ∧
     (bplib_accept ch true 0 false).2.stats.lost = 1) := by
  constructor
  · exact accept_failure_drops_payload _ false 1 true 1 [42, 43] [] rfl rfl
      (Or.inl ⟨by simp, by norm_num⟩)
  · have h := accept_failure_drops_payload
      ({ Channel.opened defaultAttrs with payloadStore := ⟨[1], [(1, [42, 43])], 2⟩ })
      true 0 false 1 [42, 43] [] rfl rfl (Or.inr ⟨rfl, by simp⟩)
    exact ⟨h.1, h.2.2.2⟩

theorem invq_getD_of_ge {t : List ActiveSlot} {i : Nat} (h : t.length ≤ i) :
    t.getD i default = default := by
  rw [List.getD_eq_getElem?_getD, List.getElem?_eq_none (by omega)]
  rfl

theorem getD_set_ne (t : List ActiveSlot) {i j : Nat} (x : ActiveSlot) (h : i ≠ j) :
    (t.set i x).getD j default = t.getD j default := by
  rw [List.getD_eq_getElem?_getD, List.getD_eq_getElem?_getD, List.getElem?_set_ne h]

theorem getD_set_self (t : List ActiveSlot) {i : Nat} (x : ActiveSlot)
    (h : i < t.length) :
    (t.set i x).getD i default = x := by
  rw [List.getD_eq_getElem?_getD, List.getElem?_set_eq_of_lt x h]
  rfl

/-- Vacating (or rewriting with another vacant value) any slot preserves the
invariant. -/
theorem invq_vacate {s o c : Nat} {t : List ActiveSlot} (h : InvQ s o c t)
    (i : Nat) (x : ActiveSlot) (hx : x.sid = none) : InvQ s o c (t.set i x) :=
  ⟨by rw [List.length_set]; exact h.1, h.2.1, by
    intro j hj
    rcases eq_or_ne i j with rfl | hne
    · by_cases hi : i < t.length
      · rw [getD_set_self t x hi] at hj; exact absurd hx hj
      · rw [List.set_eq_of_length_le (by omega)] at hj
        exact h.2.2 i hj
    · rw [getD_set_ne t x hne] at hj
      exact h.2.2 j hj⟩

/-- Rewriting a slot without changing its occupancy (e.g. updating `retx`)
preserves the invariant. -/
theorem invq_set_same_sid {s o c : Nat} {t : List ActiveSlot} (h : InvQ s o c t)
    (i : Nat) (x : ActiveSlot) (hx : x.sid = (t.getD i default).sid) :
    InvQ s o c (t.set i x) :=
  ⟨by rw [List.length_set]; exact h.1, h.2.1, by
    intro j hj
    rcases eq_or_ne i j with rfl | hne
    · by_cases hi : i < t.length
      · rw [getD_set_self t x hi] at hj
        exact h.2.2 i (hx ▸ hj)
      · rw [List.set_eq_of_length_le (by omega)] at hj
        exact h.2.2 i hj
    · rw [getD_set_ne t x hne] at hj
      exact h.2.2 j hj⟩

/-- Advancing `oldest` past a vacant slot preserves the invariant. -/
theorem invq_advance_of_vacant {s o c : Nat} {t : List ActiveSlot} (h : InvQ s o c t)
    (hoc : o ≠ c) (hv : (t.getD (o % s) default).sid = none) :
    InvQ s (o + 1) c t :=
  ⟨h.1, by have := h.2.1; omega, by
    have hoc' : o < c := lt_of_le_of_ne h.2.1 hoc
    intro j hj
    obtain ⟨k, hk1, hk2, hk3⟩ := h.2.2 j hj
    rcases eq_or_ne k o with rfl | hne
    · exact absurd (hk3 ▸ hv) hj
    · exact ⟨k, by omega, hk2, hk3⟩⟩

/-- Vacating the slot at `oldest % size` and advancing `oldest` preserves
the invariant (the expiry, the no-reuse timeout, and the flush steps). -/
theorem invq_vacate_oldest_advance {s o c : Nat} {t : List ActiveSlot}
    (h : InvQ s o c t) (hoc : o ≠ c) (x : ActiveSlot) (hx : x.sid = none) :
    InvQ s (o + 1) c (t.set (o % s) x) := by
  refine ⟨by rw [List.length_set]; exact h.1, by have := h.2.1; omega, ?_⟩
  intro j hj
  have hvac := invq_vacate h (o % s) x hx
  obtain ⟨k, hk1, hk2, hk3⟩ := hvac.2.2 j hj
  rcases eq_or_ne k o with rfl | hne
  · -- the slot indexed by `oldest` itself was just vacated
    exfalso
    subst hk3
    by_cases hi : k % s < t.length
    · rw [getD_set_self t x hi] at hj; exact hj hx
    · rw [List.set_eq_of_length_le (by omega)] at hj
      rw [invq_getD_of_ge (by omega)] at hj
      exact hj rfl
  · exact ⟨k, by omega, hk2, hk3⟩

/-- The `DROP` wrap step: the slot at `current % size` is occupied (the
wrap condition), gets vacated, and `oldest` advances.  The occupied wrap
slot's witness shows the window spans at least one full table, so the slot
at `oldest % size` keeps a witness `oldest + size`. -/
theorem invq_drop {s o c : Nat} {t : List ActiveSlot} (h : InvQ s o c t)
    (hoc : o ≠ c) (hw : (t.getD (c % s) default).sid ≠ none)
    (x : ActiveSlot) (hx : x.sid = none) :
    InvQ s (o + 1) c (t.set (c % s) x) := by
  obtain ⟨kw, hkw1, hkw2, hkw3⟩ := h.2.2 _ hw
  have hs : 0 < s := by
    rcases Nat.eq_zero_or_pos s with rfl | hs
    · -- with size 0 the table is empty and no slot can be occupied
      exfalso
      rw [invq_getD_of_ge (by omega)] at hw
      exact hw rfl
    · exact hs
  -- `kw ≡ c (mod s)` and `kw < c` force `kw + s ≤ c`
  have hks : kw + s ≤ c := by
    have h2 : s ∣ (c - kw) := (Nat.modEq_iff_dvd' (le_of_lt hkw2)).1 hkw3
    rcases h2 with ⟨m, hm⟩
    rcases Nat.eq_zero_or_pos m with rfl | hmp
    · omega
    · have : s * 1 ≤ s * m := Nat.mul_le_mul_left s hmp
      omega
  refine ⟨by rw [List.length_set]; exact h.1, by have := h.2.1; omega, ?_⟩
  intro j hj
  have hvac := invq_vacate h (c % s) x hx
  obtain ⟨k, hk1, hk2, hk3⟩ := hvac.2.2 j hj
  rcases eq_or_ne k o with rfl | hne
  · -- the old witness was `oldest`; replace it by `oldest + size`
    subst hk3
    have hjo : k % s ≠ c % s := by
      intro he
      by_cases hi : c % s < t.length
      · rw [he, getD_set_self t x hi] at hj; exact hj hx
      · rw [List.set_eq_of_length_le (by omega)] at hj
        rw [he, invq_getD_of_ge (by omega)] at hj
        exact hj rfl
    refine ⟨k + s, by omega, ?_, by simp [Nat.add_mod_right]⟩
    -- `k + s < c`: we have `kw ≥ o = k` and `kw + s ≤ c`; equality would
    -- make `o ≡ c (mod s)`, contradicting `hjo`
    rcases Nat.lt_or_ge (k + s) c with hlt | hge
    · exact hlt
    · exfalso
      have he : k + s = c := by omega
      apply hjo
      rw [← he, Nat.add_mod_right]
  · exact ⟨k, by omega, hk2, hk3⟩

/-- The emission install step: write anything into the slot at
`current % size` and increment `current`. -/
theorem invq_install {s o c : Nat} {t : List ActiveSlot} (h : InvQ s o c t)
    (x : ActiveSlot) : InvQ s o (c + 1) (t.set (c % s) x) := by
  refine ⟨by rw [List.length_set]; exact h.1, by have := h.2.1; omega, ?_⟩
  intro j hj
  rcases eq_or_ne (c % s) j with rfl | hne
  · exact ⟨c, h.2.1, by omega, rfl⟩
  · rw [getD_set_ne t x hne] at hj
    obtain ⟨k, hk1, hk2, hk3⟩ := h.2.2 j hj
    exact ⟨k, hk1, by omega, hk3⟩

/-- The counting consequence: under the invariant, the occupied slots inject
into the custody-id window via `· % size`. -/
theorem invq_count_le {s o c : Nat} {t : List ActiveSlot} (h : InvQ s o c t) :
    ((Finset.range s).filter (fun i => (t.getD i default).sid ≠ none)).card ≤ c - o := by
  have hsub : ((Finset.range s).filter (fun i => (t.getD i default).sid ≠ none)) ⊆
      (Finset.Ico o c).image (· % s) := by
    intro j hj
    simp only [Finset.mem_filter, Finset.mem_range] at hj
    obtain ⟨k, hk1, hk2, hk3⟩ := h.2.2 j hj.2
    exact Finset.mem_image.2 ⟨k, Finset.mem_Ico.2 ⟨hk1, hk2⟩, hk3⟩
  calc ((Finset.range s).filter _).card
      ≤ ((Finset.Ico o c).image (· % s)).card := Finset.card_le_card hsub
    _ ≤ (Finset.Ico o c).card := Finset.card_image_le
    _ = c - o := Nat.card_Ico o c

theorem inv_count_le {ch : Channel} (h : Inv ch) :
    nonVacantCount ch ≤ ch.current_active_cid - ch.oldest_active_cid :=
  invq_count_le h

theorem setSel_active_table (ch : Channel) (sel : StoreSel) (st : Storage BpBundleData) :
    (ch.setSel sel st).active_table = ch.active_table := by cases sel <;> rfl

theorem setSel_attributes (ch : Channel) (sel : StoreSel) (st : Storage BpBundleData) :
    (ch.setSel sel st).attributes = ch.attributes := by cases sel <;> rfl

theorem setSel_oldest (ch : Channel) (sel : StoreSel) (st : Storage BpBundleData) :
    (ch.setSel sel st).oldest_active_cid = ch.oldest_active_cid := by cases sel <;> rfl

theorem setSel_current (ch : Channel) (sel : StoreSel) (st : Storage BpBundleData) :
    (ch.setSel sel st).current_active_cid = ch.current_active_cid := by cases sel <;> rfl

theorem inv_of_fields {ch ch' : Channel}
    (hattr : ch'.attributes.active_table_size = ch.attributes.active_table_size)
    (ho : ch'.oldest_active_cid = ch.oldest_active_cid)
    (hc : ch'.current_active_cid = ch.current_active_cid)
    (ht : ch'.active_table = ch.active_table)
    (h : Inv ch) : Inv ch' := by
  unfold Inv at h ⊢
  rw [hattr, ho, hc, ht]
  exact h

/-- The timeout scan preserves the invariant and the attributes, for
channels with `cid_reuse` disabled and a wrap response other than
`RESEND`. -/
theorem loadScanLoop_inv (sysnow : Nat) (fuel : Nat) (ch : Channel) (l : LoadLocals)
    (hcr : ch.attributes.cid_reuse = false)
    (hwr : ch.attributes.wrap_response ≠ BP_WRAP_RESEND)
    (h : Inv ch) :
    Inv (loadScanLoop sysnow fuel ch l).1 ∧
    (loadScanLoop sysnow fuel ch l).1.attributes = ch.attributes := by
  induction fuel generalizing ch l with
  | zero => exact ⟨h, rfl⟩
  | succ n ih =>
    simp only [loadScanLoop]
    split
    case isFalse => exact ⟨h, rfl⟩
    case isTrue hlive =>
      have hoc : ch.oldest_active_cid ≠ ch.current_active_cid := hlive.2
      split
      case h_1 hv =>
        -- vacant entry: advance oldest
        have h' : Inv { ch with oldest_active_cid := ch.oldest_active_cid + 1 } :=
          invq_advance_of_vacant h hoc hv
        exact ih _ _ hcr hwr h'
      case h_2 sid hsid =>
        split
        case h_2 =>
          -- failed to retrieve: vacate without advancing
          have h' := invq_vacate h
            (ch.oldest_active_cid % ch.attributes.active_table_size)
            { ch.active_table.getD
                (ch.oldest_active_cid % ch.attributes.active_table_size) default
              with sid := none } rfl
          exact ih _ _ hcr hwr h'
        case h_1 data hdata =>
          split
          case isTrue hexp =>
            -- expired: vacate the oldest slot and advance
            have h' := invq_vacate_oldest_advance h hoc
              { ch.active_table.getD
                  (ch.oldest_active_cid % ch.attributes.active_table_size) default
                with sid := none } rfl
            exact ih _ _ hcr hwr h'
          case isFalse hnexp =>
            split
            case isTrue htime =>
              -- timed out: `cid_reuse` is disabled, so the slot is cleared
              rw [hcr]
              simp only [Bool.false_eq_true, if_false]
              have h' := invq_vacate_oldest_advance h hoc
                { ch.active_table.getD
                    (ch.oldest_active_cid % ch.attributes.active_table_size) default
                  with sid := none } rfl
              exact ih _ _ hcr hwr h'
            case isFalse hntime =>
              -- oldest still live: wrap check, then break
              split
              case h_1 hwv => exact ⟨h, rfl⟩
              case h_2 wsid hwsid =>
                -- `split` has already pruned the `RESEND` branch via `hwr`
                split
                case isTrue hblock => exact ⟨h, rfl⟩
                case isFalse hdrop =>
                  have hocc : (ch.active_table.getD
                      (ch.current_active_cid % ch.attributes.active_table_size)
                      default).sid ≠ none := by rw [hwsid]; simp
                  have h' := invq_drop h hoc hocc
                    { ch.active_table.getD
                        (ch.current_active_cid % ch.attributes.active_table_size) default
                      with sid := none } rfl
                  exact ⟨h', rfl⟩

/-- The fresh dequeue loop touches only the selected store and the
statistics. -/
theorem loadDequeueLoop_inv (sysnow : Nat) (fuel : Nat) (ch : Channel) (l : LoadLocals)
    (h : Inv ch) :
    Inv (loadDequeueLoop sysnow fuel ch l).1 ∧
    (loadDequeueLoop sysnow fuel ch l).1.attributes = ch.attributes := by
  induction fuel generalizing ch l with
  | zero => exact ⟨h, rfl⟩
  | succ n ih =>
    simp only [loadDequeueLoop]
    split
    case isFalse => exact ⟨h, rfl⟩
    case isTrue =>
      split
      case h_2 =>
        -- empty storage
        refine ⟨inv_of_fields ?_ ?_ ?_ ?_ h, ?_⟩ <;>
          simp [setSel_active_table, setSel_attributes, setSel_oldest, setSel_current]
      case h_1 sid data hdq =>
        split
        case isTrue hexp =>
          constructor
          · exact (ih _ _ (inv_of_fields (by simp [setSel_attributes])
              (by simp [setSel_oldest]) (by simp [setSel_current])
              (by simp [setSel_active_table]) h)).1
          · refine ((ih _ _ (inv_of_fields (by simp [setSel_attributes])
              (by simp [setSel_oldest]) (by simp [setSel_current])
              (by simp [setSel_active_table]) h)).2).trans ?_
            simp [setSel_attributes]
        case isFalse =>
          have h' : Inv (ch.setSel l.sel ((ch.getSel l.sel).dequeue).2) :=
            inv_of_fields (by rw [setSel_attributes]) (setSel_oldest ..)
              (setSel_current ..) (setSel_active_table ..) h
          have := ih (ch.setSel l.sel ((ch.getSel l.sel).dequeue).2)
            { l with sid := some sid, data := some data } h'
          exact ⟨this.1, this.2.trans (setSel_attributes ..)⟩

/-- The emission stage preserves the invariant unconditionally: the only
table mutations are the install at `current % size` with the increment of
`current`, and a `retx` rewrite that keeps the slot's occupancy. -/
theorem loadEmit_inv (sysnow : Nat) (bufNull : Bool) (bufSize : Nat) (mallocOk : Bool)
    (ch : Channel) (l : LoadLocals) (h : Inv ch) :
    Inv (loadEmit sysnow bufNull bufSize mallocOk ch l).1 ∧
    (loadEmit sysnow bufNull bufSize mallocOk ch l).1.attributes = ch.attributes := by
  obtain ⟨ld, ls, la, ln, lse, lst, lf, lw⟩ := l
  cases ld with
  | none => exact ⟨h, rfl⟩
  | some data =>
    cases lse <;> cases ls <;> cases ln <;>
      simp only [loadEmit] <;> split_ifs <;>
      first
        | exact ⟨h, rfl⟩
        | exact ⟨invq_set_same_sid h _ _ rfl, rfl⟩
        | exact ⟨invq_set_same_sid (invq_install h _) _ _ rfl, rfl⟩

/-- Source `bplib_load` preserves the invariant for channels with `cid_reuse`
disabled and a wrap response other than `RESEND`. -/
theorem bplib_load_inv (ch : Channel) (bufNull : Bool) (bufSize : Nat) (mallocOk : Bool)
    (sysnow scanFuel dqFuel : Nat)
    (hcr : ch.attributes.cid_reuse = false)
    (hwr : ch.attributes.wrap_response ≠ BP_WRAP_RESEND)
    (h : Inv ch) :
    Inv (bplib_load ch bufNull bufSize mallocOk sysnow scanFuel dqFuel).2 ∧
    (bplib_load ch bufNull bufSize mallocOk sysnow scanFuel dqFuel).2.attributes =
      ch.attributes := by
  simp only [bplib_load]
  rcases hdq : (ch.dacsStore.dequeue).1 with _ | ⟨sid, data⟩ <;> simp only [hdq]
  · -- no DACS pending: scan, dequeue, emit
    split
    case isFalse hfalse => simp at hfalse
    case isTrue =>
      have h2 := loadScanLoop_inv sysnow scanFuel
        { ch with dacsStore := (ch.dacsStore.dequeue).2 }
        { data := none, sid := none, ati := 0, newcid := true, sel := .bundle,
          status := BP_SUCCESS, flags := 0, waits := [] } hcr hwr h
      have h3 := loadDequeueLoop_inv sysnow dqFuel _
        (loadScanLoop sysnow scanFuel
          { ch with dacsStore := (ch.dacsStore.dequeue).2 }
          { data := none, sid := none, ati := 0, newcid := true, sel := .bundle,
            status := BP_SUCCESS, flags := 0, waits := [] }).2 h2.1
      have h4 := loadEmit_inv sysnow bufNull bufSize mallocOk _
        (loadDequeueLoop sysnow dqFuel
          (loadScanLoop sysnow scanFuel
            { ch with dacsStore := (ch.dacsStore.dequeue).2 }
            { data := none, sid := none, ati := 0, newcid := true, sel := .bundle,
              status := BP_SUCCESS, flags := 0, waits := [] }).1
          (loadScanLoop sysnow scanFuel
            { ch with dacsStore := (ch.dacsStore.dequeue).2 }
            { data := none, sid := none, ati := 0, newcid := true, sel := .bundle,
              status := BP_SUCCESS, flags := 0, waits := [] }).2).2 h3.1
      exact ⟨h4.1, (h4.2.trans h3.2).trans h2.2⟩
  · -- a DACS bundle was dequeued: skip the scan
    split
    case isTrue hfalse => simp at hfalse
    case isFalse =>
      have h3 := loadDequeueLoop_inv sysnow dqFuel
        { ch with dacsStore := (ch.dacsStore.dequeue).2 }
        { data := some data, sid := some sid, ati := 0, newcid := true, sel := .dacs,
          status := BP_SUCCESS, flags := 0 ||| BP_FLAG_ROUTENEEDED, waits := [] } h
      have h4 := loadEmit_inv sysnow bufNull bufSize mallocOk _
        (loadDequeueLoop sysnow dqFuel
          { ch with dacsStore := (ch.dacsStore.dequeue).2 }
          { data := some data, sid := some sid, ati := 0, newcid := true, sel := .dacs,
            status := BP_SUCCESS, flags := 0 ||| BP_FLAG_ROUTENEEDED, waits := [] }).2 h3.1
      exact ⟨h4.1, h4.2.trans h3.2⟩

/-- Source `bplib_store` touches only the bundle store, the `prebuilt` flag and
the statistics. -/
theorem bplib_store_inv (ch : Channel) (paySize sysnow : Nat) (h : Inv ch) :
    Inv (bplib_store ch paySize sysnow).2 ∧
    (bplib_store ch paySize sysnow).2.attributes = ch.attributes := by
  simp only [bplib_store, bundle_send]
  split_ifs <;> exact ⟨h, rfl⟩

/-- The DACS callback `acknowledge` at most vacates one slot. -/
theorem acknowledge_inv (ch : Channel) (cid : Nat) (h : Inv ch) :
    Inv (acknowledge ch cid).2 ∧ (acknowledge ch cid).2.attributes = ch.attributes := by
  simp only [acknowledge]
  split
  case h_1 sid hsid => exact ⟨invq_vacate h _ _ rfl, rfl⟩
  case h_2 => exact ⟨h, rfl⟩

/-- The acknowledgment branch of `bplib_process` preserves the invariant. -/
theorem bplib_process_ack_inv (ch : Channel) (cids : List Nat) (h : Inv ch) :
    Inv (bplib_process_ack ch cids).2 ∧
    (bplib_process_ack ch cids).2.attributes = ch.attributes := by
  simp only [bplib_process_ack]
  have hfold : ∀ (cs : List Nat) (acc : Nat × Channel), Inv acc.2 →
      acc.2.attributes = ch.attributes →
      Inv (cs.foldl (fun (a : Nat × Channel) cid =>
        (if (acknowledge a.2 cid).1 = BP_SUCCESS then a.1 + 1 else a.1,
         (acknowledge a.2 cid).2)) acc).2 ∧
      (cs.foldl (fun (a : Nat × Channel) cid =>
        (if (acknowledge a.2 cid).1 = BP_SUCCESS then a.1 + 1 else a.1,
         (acknowledge a.2 cid).2)) acc).2.attributes = ch.attributes := by
    intro cs
    induction cs with
    | nil => intro acc ha hattr; exact ⟨ha, hattr⟩
    | cons c rest ih =>
      intro acc ha hattr
      exact ih _ (acknowledge_inv acc.2 c ha).1
        ((acknowledge_inv acc.2 c ha).2.trans hattr)
  have hstep := hfold cids (0, { ch with
    stats := { ch.stats with received := ch.stats.received + 1 } }) h rfl
  split
  case isTrue => exact ⟨hstep.1, hstep.2⟩
  case isFalse => exact ⟨hstep.1, hstep.2⟩

/-- Each flush-loop iteration vacates the oldest slot (if occupied) and
advances `oldest`. -/
theorem flushLoop_inv (fuel : Nat) (ch : Channel) (h : Inv ch) :
    Inv (flushLoop fuel ch) ∧ (flushLoop fuel ch).attributes = ch.attributes := by
  induction fuel generalizing ch with
  | zero => exact ⟨h, rfl⟩
  | succ n ih =>
    simp only [flushLoop]
    split
    case isFalse => exact ⟨h, rfl⟩
    case isTrue hoc =>
      split
      case h_1 sid hsid =>
        have h' := invq_vacate_oldest_advance h hoc
          { ch.active_table.getD
              (ch.oldest_active_cid % ch.attributes.active_table_size) default
            with sid := none } rfl
        exact ih _ h'
      case h_2 hv =>
        have h' := invq_advance_of_vacant h hoc hv
        exact ih _ h'

theorem bplib_flush_inv (ch : Channel) (h : Inv ch) :
    Inv (bplib_flush ch).2 ∧ (bplib_flush ch).2.attributes = ch.attributes :=
  flushLoop_inv _ ch h

/-- A freshly opened channel satisfies the invariant: the table is
all-vacant and the window is empty. -/
theorem opened_inv (attrs : BpAttr) : Inv (Channel.opened attrs) := by
  refine ⟨List.length_replicate .., le_refl 1, ?_⟩
  intro i hi
  exfalso
  apply hi
  show ((List.replicate attrs.active_table_size (default : ActiveSlot)).getD i
    default).sid = none
  rcases Nat.lt_or_ge i attrs.active_table_size with hlt | hge
  · rw [List.getD_eq_getElem?_getD, List.getElem?_replicate_of_lt hlt]
    rfl
  · rw [List.getD_eq_getElem?_getD,
      List.getElem?_eq_none (by simpa using hge)]
    rfl

/-- Every operation preserves the invariant and the attributes, for
channels with `cid_reuse` disabled and a wrap response other than
`RESEND`. -/
theorem chop_inv (op : ChOp) (ch : Channel)
    (hcr : ch.attributes.cid_reuse = false)
    (hwr : ch.attributes.wrap_response ≠ BP_WRAP_RESEND)
    (h : Inv ch) :
    Inv (op.apply ch) ∧ (op.apply ch).attributes = ch.attributes := by
  cases op with
  | store paySize sysnow => exact bplib_store_inv ch paySize sysnow h
  | load bufNull bufSize mallocOk sysnow scanFuel dqFuel =>
    exact bplib_load_inv ch bufNull bufSize mallocOk sysnow scanFuel dqFuel hcr hwr h
  | processAck cids => exact bplib_process_ack_inv ch cids h
  | flush => exact bplib_flush_inv ch h

/-- The invariant holds in every reachable state. -/
theorem runOps_inv (attrs : BpAttr) (ops : List ChOp)
    (hcr : attrs.cid_reuse = false)
    (hwr : attrs.wrap_response ≠ BP_WRAP_RESEND) :
    Inv (runOps attrs ops) ∧ (runOps attrs ops).attributes = attrs := by
  have hgen : ∀ (l : List ChOp) (ch : Channel), Inv ch → ch.attributes = attrs →
      Inv (l.foldl ChOp.apply ch) ∧ (l.foldl ChOp.apply ch).attributes = attrs := by
    intro l
    induction l with
    | nil => intro ch h hattr; exact ⟨h, hattr⟩
    | cons op rest ih =>
      intro ch h hattr
      have hstep := chop_inv op ch (by rw [hattr]; exact hcr)
        (by rw [hattr]; exact hwr) h
      exact ih _ hstep.1 (hstep.2.trans hattr)
  exact hgen ops (Channel.opened attrs) (opened_inv attrs) rfl

/-- C3 counterexample: the claimed *equality* between
`current_active_cid - oldest_active_cid` and the number of non-vacant
active-table slots fails in a reachable state.  Storing and loading one
custodial bundle and then processing a DACS that acknowledges custody id 1
vacates the slot (in `acknowledge`) without advancing `oldest_active_cid`,
leaving a difference of 1 against 0 occupied slots. -/
theorem channel_count_equality_fails :
    ((runOps attrsScenario
        [ChOp.store 5 0, ChOp.load true 0 true 0 8 4, ChOp.processAck [1]]
      ).current_active_cid -
     (runOps attrsScenario
        [ChOp.store 5 0, ChOp.load true 0 true 0 8 4, ChOp.processAck [1]]
      ).oldest_active_cid = 1) ∧
    nonVacantCount (runOps attrsScenario
      [ChOp.store 5 0, ChOp.load true 0 true 0 8 4, ChOp.processAck [1]]) = 0 := by
  decide

/-- C3 (amended): in every reachable state of a channel whose `cid_reuse`
is disabled and whose wrap response is not `RESEND`,
`current_active_cid - oldest_active_cid` is an *upper bound* on the number
of non-vacant active-table slots (the equality of the original claim fails
once a DACS acknowledgment vacates a slot without advancing
`oldest_active_cid`). -/
theorem channel_active_count_bounded (attrs : BpAttr) (ops : List ChOp)
    (hcr : attrs.cid_reuse = false)
    (hwr : attrs.wrap_response ≠ BP_WRAP_RESEND) :
    nonVacantCount (runOps attrs ops) ≤
      (runOps attrs ops).current_active_cid - (runOps attrs ops).oldest_active_cid :=
  inv_count_le (runOps_inv attrs ops hcr hwr).1

/-- C3 witness: the amended bound applied to the counterexample's own
scenario. -/
theorem channel_active_count_bounded_witness :
    nonVacantCount (runOps attrsScenario
      [ChOp.store 5 0, ChOp.load true 0 true 0 8 4, ChOp.processAck [1]]) ≤
    (runOps attrsScenario
      [ChOp.store 5 0, ChOp.load true 0 true 0 8 4, ChOp.processAck [1]]
      ).current_active_cid -
    (runOps attrsScenario
      [ChOp.store 5 0, ChOp.load true 0 true 0 8 4, ChOp.processAck [1]]
      ).oldest_active_cid :=
  channel_active_count_bounded attrsScenario
    [ChOp.store 5 0, ChOp.load true 0 true 0 8 4, ChOp.processAck [1]]
    (by decide) (by decide)

/-- C5: on a `BLOCK`-wrap channel whose two-slot active table is full of
live custodial bundles and whose bundle storage is empty, `bplib_load`
*does* set the active-table-wrap flag, wait once on the active-table
condition variable with `BP_WRAP_TIMEOUT`, and set the status to
`BP_OVERFLOW` in the scan (visible when the fresh-dequeue loop is not
run) — but the fresh-dequeue loop then runs on the empty storage and
overwrites the status, so the call returns `BP_TIMEOUT`, not the
`BP_OVERFLOW` the claim states. -/
theorem load_wrap_block_returns_timeout :
    ((bplib_load (runOps attrsBlock2
        [ChOp.store 5 0, ChOp.load true 0 true 0 8 4,
         ChOp.store 5 0, ChOp.load true 0 true 0 8 4]) true 0 true 5 8 0
      ).1.status = BP_OVERFLOW) ∧
    ((bplib_load (runOps attrsBlock2
        [ChOp.store 5 0, ChOp.load true 0 true 0 8 4,
         ChOp.store 5 0, ChOp.load true 0 true 0 8 4]) true 0 true 5 8 4
      ).1.flags &&& BP_FLAG_ACTIVETABLEWRAP ≠ 0) ∧
    ((bplib_load (runOps attrsBlock2
        [ChOp.store 5 0, ChOp.load true 0 true 0 8 4,
         ChOp.store 5 0, ChOp.load true 0 true 0 8 4]) true 0 true 5 8 4
      ).1.waits = [BP_WRAP_TIMEOUT]) ∧
    ((bplib_load (runOps attrsBlock2
        [ChOp.store 5 0, ChOp.load true 0 true 0 8 4,
         ChOp.store 5 0, ChOp.load true 0 true 0 8 4]) true 0 true 5 8 4
      ).1.status = BP_TIMEOUT) ∧
    ((bplib_load (runOps attrsBlock2
        [ChOp.store 5 0, ChOp.load true 0 true 0 8 4,
         ChOp.store 5 0, ChOp.load true 0 true 0 8 4]) true 0 true 5 8 4
      ).1.status ≠ BP_OVERFLOW) := by
  decide

/-- C9: on the record encoding the custody-id set `{1,2,3,7,8,10}` —
type `0x40`, status `0x01` (ack bit set), first CID 1, then the fills
run 3, gap 3, run 2, gap 1, run 1 — `dacs_read` invokes the `acknowledge`
callback once per custody id of each run, in increasing CID order
(`[1,2,3,7,8,10]`), and returns the number of custody ids whose
acknowledgment succeeded: 6 against the mock channel with slots 1..10
installed, 5 when the slot of custody id 7 is vacant; with the status ack
bit clear no callback runs and 0 is returned. -/
theorem dacs_read_gap_encoding :
    ((dacs_read [0x40, 0x01, 0x01, 0x03, 0x03, 0x02, 0x01, 0x01] 8
        acknowledge mockDacsChannel).1 = 6) ∧
    ((dacs_read [0x40, 0x01, 0x01, 0x03, 0x03, 0x02, 0x01, 0x01] 8
        acknowledge mockDacsChannel).2.2 = [1, 2, 3, 7, 8, 10]) ∧
    ((dacs_read [0x40, 0x01, 0x01, 0x03, 0x03, 0x02, 0x01, 0x01] 8 acknowledge
        { mockDacsChannel with
          active_table := mockDacsChannel.active_table.set 7 ⟨none, 0⟩ }).1 = 5) ∧
    ((dacs_read [0x40, 0x00, 0x01, 0x03, 0x03, 0x02, 0x01, 0x01] 8
        acknowledge mockDacsChannel).1 = 0) ∧
    ((dacs_read [0x40, 0x00, 0x01, 0x03, 0x03, 0x02, 0x01, 0x01] 8
        acknowledge mockDacsChannel).2.2 = []) := by
  decide

/-- C8: after inserting 0, 1, 2 the tree holds the single range `(0, 3)`;
inserting the duplicate 1 — a value interior to that range — is not
ignored: `insert` returns true and creates the node `(1, 1)`, so the
stored ranges `(0,3)` and `(1,1)` overlap and in particular are not
disjoint and non-adjacent (`rangesSeparated` fails).  In
`try_binary_insert_or_merge`, a value strictly inside a stored range
`[v, v + offset)` fails all four guards at that node (it is neither
consecutive below `v`, nor `< v`, nor consecutive above `v + offset - 1`,
nor equal to `v`) and descends as if absent, so it is inserted as a fresh
overlapping node instead of being ignored as a duplicate. -/
theorem rb_insert_duplicate_overlap :
    rbInorder (insertSeq [0, 1, 2, 1] (create_rb_tree 4)) = [(0, 3), (1, 1)] ∧
    rangesSeparated (rbInorder (insertSeq [0, 1, 2, 1] (create_rb_tree 4))) = false ∧
    (rb_insert 1 (insertSeq [0, 1, 2] (create_rb_tree 4))).1 = true :=
  ⟨rfl, rfl, rfl⟩

/-- C6: the insert sequence 5, 6, 7, 6 leaves the tree invalid: the first
three inserts coalesce into the single range `(5, 3)`, and the duplicate
6 is re-inserted as the overlapping node `(6, 1)`, violating the fourth
validity invariant (in-order ranges strictly increasing and non-adjacent)
while the three colour invariants still hold — so `rbValid` is false after
a sequence of insert operations. -/
theorem rb_tree_validity_fails :
    rbValid (insertSeq [5, 6, 7, 6] (create_rb_tree 4)) = false ∧
    is_black (insertSeq [5, 6, 7, 6] (create_rb_tree 4))
      (insertSeq [5, 6, 7, 6] (create_rb_tree 4)).root = true ∧
    noRedRed (insertSeq [5, 6, 7, 6] (create_rb_tree 4)) 5
      (insertSeq [5, 6, 7, 6] (create_rb_tree 4)).root = true ∧
    (blackDepth (insertSeq [5, 6, 7, 6] (create_rb_tree 4)) 5
      (insertSeq [5, 6, 7, 6] (create_rb_tree 4)).root).isSome = true ∧
    rbInorder (insertSeq [5, 6, 7, 6] (create_rb_tree 4)) = [(5, 3), (6, 1)] :=
  ⟨rfl, rfl, rfl, rfl, rfl⟩

end BplibSpec
